import Mathlib

/-!
Verification development for the token-ownership reconstruction engine of
`processor/src/processors/token_v2/token_v2_models/v2_token_ownerships.rs`.

The Rust source is shallowly embedded: structs become Lean structures,
`BigDecimal` becomes a mantissa/scale pair over `Int`, `AHashMap` read
context becomes association lists, fallible code returns `Except`, and the
one effectful dependency (the database point lookup) becomes an oracle
mapping each attempt number to that attempt's outcome, so that the retry
loop's attempt count is observable.
-/

set_option maxHeartbeats 1000000

/-- Association-list lookup, modelling read access to an `AHashMap` whose
contents are given as a list of key/value bindings (later bindings shadow
earlier ones the way repeated `insert` calls would; lookups here only need
the first match). -/
def lookupA {α : Type} (k : String) : List (String × α) → Option α
  | [] => none
  | (k', v) :: t => if k' = k then some v else lookupA k t

/-- Model of `bigdecimal::BigDecimal`: an arbitrary-precision signed decimal
`int_val * 10 ^ (-scale)`, exactly the crate's `(BigInt, i64)` representation. -/
structure BigDec where
  int_val : Int
  scale : Int
  deriving DecidableEq, Repr

/-- The rational value denoted by a `BigDec`. -/
def BigDec.val (x : BigDec) : ℚ := (x.int_val : ℚ) * (10 : ℚ) ^ (-x.scale)

/-- `BigDecimal::zero()`. -/
def BigDec.zero : BigDec := ⟨0, 0⟩

/-- `BigDecimal::one()`. -/
def BigDec.one : BigDec := ⟨1, 0⟩

/-- Modelled from the spec: `aptos_indexer_processor_sdk::utils::convert::standardize_address`
(the SDK crate is not part of this repository). Address canonicalization is
idempotent; the claims quantify over already-canonical addresses, on which it
is the identity. -/
def standardize_address (s : String) : String := s

/-- Modelled from the spec: `aptos_indexer_processor_sdk::utils::convert::ensure_not_negative`
(the SDK crate is not part of this repository), which the spec describes as
clamping a negative token amount: a negative decimal becomes zero, any other
value is returned unchanged. -/
def ensure_not_negative (value : BigDec) : BigDec :=
  if value.int_val < 0 then BigDec.zero else value

/-- Modelled from the spec: the well-known sentinel "unknown owner" address
`DEFAULT_OWNER_ADDRESS` of `v2_token_utils.rs` (declared outside the given
sources). Its concrete text is irrelevant to the claims. -/
def DEFAULT_OWNER_ADDRESS : String := "unknown"

/-- Modelled from the spec: the documented sentinel string `DEFAULT_NONE` of
`v2_token_utils.rs` (declared outside the given sources), substituted when
JSON canonicalization fails. -/
def DEFAULT_NONE : String := "NULL"

/-- Modelled from the spec: the canonical legacy token-store type tag
`V1_TOKEN_STORE_TABLE_TYPE` of `token_utils.rs` (declared outside the given
sources). -/
def V1_TOKEN_STORE_TABLE_TYPE : String := "0x3::token::TokenStore"

/-- `TokenStandard::V2.to_string()` (from `v2_token_utils.rs`, outside the
given sources; an opaque tag). -/
def tokenStandardV2 : String := "v2"

/-- `TokenStandard::V1.to_string()` (from `v2_token_utils.rs`, outside the
given sources; an opaque tag). -/
def tokenStandardV1 : String := "v1"

/-- Model of `serde_json::Value`. Finite non-integral doubles are carried as
their decimal rendering (the text `serde_json` would emit for them), which
keeps the type executable while preserving the one fact the claims need:
canonical JSON cannot represent them. -/
inductive JsonValue where
  | null : JsonValue
  | bool (b : Bool) : JsonValue
  | intNum (n : Int) : JsonValue
  | floatNum (repr : String) : JsonValue
  | str (s : String) : JsonValue
  | arr (xs : List JsonValue) : JsonValue
  | obj (fields : List (String × JsonValue)) : JsonValue

/-- Transfer event as exposed by `v2_token_utils::TransferEvent`
(`get_from_address` / `get_to_address` return the stored standardized
addresses). -/
structure TransferEvent where
  from_address : String
  to_address : String
  deriving DecidableEq, Repr

/-- The object core carried by `ObjectWithMetadata`
(`get_owner_address` returns the stored standardized owner). -/
structure ObjectCore where
  owner : String
  allow_ungated_transfer : Bool
  deriving DecidableEq, Repr

/-- `v2_object_utils::ObjectWithMetadata` restricted to the fields this
module reads. -/
structure ObjectWithMetadata where
  object_core : ObjectCore
  deriving DecidableEq, Repr

/-- One entry of `ObjectAggregatedDataMapping`, restricted to the fields
this module reads: the object core, the optional untransferable marker, and
the indexed transfer events. -/
structure ObjectAggregatedData where
  object : ObjectWithMetadata
  untransferable : Option Unit
  transfer_events : List (Int × TransferEvent)
  deriving DecidableEq, Repr

/-- `TokenDataV2` restricted to the fields `get_nft_v2_from_token_data`
reads. -/
structure TokenDataV2 where
  token_data_id : String
  transaction_version : Int
  write_set_change_index : Int
  transaction_timestamp : Int
  deriving DecidableEq, Repr

/-- `TokenOwnershipV2` (the canonical ownership-event record). Timestamps
are opaque integers. -/
structure TokenOwnershipV2 where
  transaction_version : Int
  write_set_change_index : Int
  token_data_id : String
  property_version_v1 : BigDec
  owner_address : Option String
  storage_id : String
  amount : BigDec
  table_type_v1 : Option String
  token_properties_mutated_v1 : Option JsonValue
  is_soulbound_v2 : Option Bool
  token_standard : String
  is_fungible_v2 : Option Bool
  transaction_timestamp : Int
  non_transferrable_by_owner : Option Bool

/-- `CurrentTokenOwnershipV2` (the canonical current-ownership record). -/
structure CurrentTokenOwnershipV2 where
  token_data_id : String
  property_version_v1 : BigDec
  owner_address : String
  storage_id : String
  amount : BigDec
  table_type_v1 : Option String
  token_properties_mutated_v1 : Option JsonValue
  is_soulbound_v2 : Option Bool
  token_standard : String
  is_fungible_v2 : Option Bool
  last_transaction_version : Int
  last_transaction_timestamp : Int
  non_transferrable_by_owner : Option Bool

/-- `CurrentTokenOwnershipV2PK`: `(token_data_id, property_version_v1,
owner_address, storage_id)`. -/
abbrev CurrentTokenOwnershipV2PK : Type := String × BigDec × String × String

/-- `NFTOwnershipV2`: narrow projection used by the burn fallback cache. -/
structure NFTOwnershipV2 where
  token_data_id : String
  owner_address : String
  is_soulbound : Option Bool
  deriving DecidableEq, Repr

/-- A burn marker as exposed by `v2_token_utils::Burn`-style events:
`get_previous_owner_address` yields the embedded previous owner when the
event carries one. -/
structure BurnEventRecord where
  previous_owner_address : Option String
  deriving DecidableEq, Repr

/-- `CurrentTokenOwnershipV2Query` restricted to the fields read after a
successful lookup. -/
structure CurrentTokenOwnershipV2Query where
  token_data_id : String
  owner_address : String
  is_soulbound_v2 : Option Bool
  deriving DecidableEq, Repr

/-- `DbContext`: connection plus retry configuration. The connection is
modelled as an oracle giving, for each 1-based attempt number, the outcome
`get_latest_owned_nft_by_token_data_id_impl` would produce on that attempt
(`none` = query error). -/
structure DbContext where
  store : Nat → Option CurrentTokenOwnershipV2Query
  query_retries : Nat
  query_retry_delay_ms : Nat

/-- One entry of `TableHandleToOwner` (`TableMetadataForToken`):
`get_owner_address` returns the stored standardized owner. -/
structure TableMetadata where
  owner_address : String
  table_type : String
  deriving DecidableEq, Repr

/-- A legacy deposit module event; `to_address` is optional in the proto. -/
structure TokenDepositEvent where
  to_address : Option String
  deriving DecidableEq, Repr

/-- A legacy withdraw module event; `from_address` is optional in the
proto. -/
structure TokenWithdrawEvent where
  from_address : Option String
  deriving DecidableEq, Repr

/-- One entry of `TokenV1AggregatedEventsMapping`, restricted to the fields
this module reads. -/
structure TokenV1AggregatedEvents where
  deposit_module_events : List TokenDepositEvent
  withdraw_module_events : List TokenWithdrawEvent
  deriving DecidableEq, Repr

/-- The decoded legacy `TokenId` struct: asset identity (`to_id()` of the
inner `TokenDataId`, collapsed to its string form since the formatting
helper lives outside the given sources) plus property version. -/
structure TokenIdStruct where
  token_data_id : String
  property_version : BigDec
  deriving DecidableEq, Repr

/-- The decoded legacy `Token` struct as produced by
`TokenWriteSet::from_table_item_type`. -/
structure TokenV1 where
  id : TokenIdStruct
  amount : BigDec
  token_properties : JsonValue

/-- The `while tried < query_retries` loop body of
`CurrentTokenOwnershipV2Query::get_latest_owned_nft_by_token_data_id`.
`tried` is the loop counter; `store` is the connection oracle (attempt
`tried + 1` queries `store (tried + 1)`). Returns the Rust function's result
together with the final value of `tried`, i.e. the number of lookup attempts
issued. The `query_retry_delay_ms` sleep between failed attempts is real
time with no effect on the result and is not modelled. -/
def nft_lookup_go (store : Nat → Option CurrentTokenOwnershipV2Query)
    (token_data_id : String) (query_retries tried : Nat) :
    Except String NFTOwnershipV2 × Nat :=
  if tried < query_retries then
    match store (tried + 1) with
    | some inner =>
        (.ok ⟨inner.token_data_id, inner.owner_address, inner.is_soulbound_v2⟩, tried + 1)
    | none => nft_lookup_go store token_data_id query_retries (tried + 1)
  else
    (.error ("Failed to get nft by token data id: " ++ token_data_id), tried)
  termination_by query_retries - tried

/-- `CurrentTokenOwnershipV2Query::get_latest_owned_nft_by_token_data_id`:
the bounded-retry external lookup, started with `tried = 0`. -/
def get_latest_owned_nft_by_token_data_id
    (store : Nat → Option CurrentTokenOwnershipV2Query)
    (token_data_id : String) (query_retries : Nat) :
    Except String NFTOwnershipV2 × Nat :=
  nft_lookup_go store token_data_id query_retries 0

/-- `TokenOwnershipV2::get_burned_nft_v2_helper`. The second component of
the result is the number of external lookup attempts issued (0 when the
database tier is never reached). -/
def get_burned_nft_v2_helper (token_address : String)
    (txn_version write_set_change_index : Int) (txn_timestamp : Int)
    (prior_nft_ownership : List (String × NFTOwnershipV2))
    (tokens_burned : List (String × BurnEventRecord))
    (db_context : Option DbContext) :
    Except String (Option (TokenOwnershipV2 × CurrentTokenOwnershipV2)) × Nat :=
  let token_address := standardize_address token_address
  match lookupA token_address tokens_burned with
  | some burn_event =>
    let resolved : String × Nat :=
      match burn_event.previous_owner_address with
      | some previous_owner => (previous_owner, 0)
      | none =>
        match lookupA token_address prior_nft_ownership with
        | some inner => (inner.owner_address, 0)
        | none =>
          match db_context with
          | none => (DEFAULT_OWNER_ADDRESS, 0)
          | some db_context =>
            match get_latest_owned_nft_by_token_data_id db_context.store
                token_address db_context.query_retries with
            | (.ok nft, attempts) => (nft.owner_address, attempts)
            | (.error _, attempts) => (DEFAULT_OWNER_ADDRESS, attempts)
    let previous_owner := resolved.1
    let token_data_id := token_address
    let storage_id := token_data_id
    (.ok (some (
      { transaction_version := txn_version
        write_set_change_index := write_set_change_index
        token_data_id := token_data_id
        property_version_v1 := BigDec.zero
        owner_address := some previous_owner
        storage_id := storage_id
        amount := BigDec.zero
        table_type_v1 := none
        token_properties_mutated_v1 := none
        is_soulbound_v2 := none
        token_standard := tokenStandardV2
        is_fungible_v2 := none
        transaction_timestamp := txn_timestamp
        non_transferrable_by_owner := none },
      { token_data_id := token_data_id
        property_version_v1 := BigDec.zero
        owner_address := previous_owner
        storage_id := storage_id
        amount := BigDec.zero
        table_type_v1 := none
        token_properties_mutated_v1 := none
        is_soulbound_v2 := none
        token_standard := tokenStandardV2
        is_fungible_v2 := none
        last_transaction_version := txn_version
        last_transaction_timestamp := txn_timestamp
        non_transferrable_by_owner := none })), resolved.2)
  | none => (.ok none, 0)

/-- `TokenOwnershipV2::get_burned_nft_v2_from_write_resource`. The write
resource is given by its address together with the (externally decoded)
result of `ObjectWithMetadata::from_write_resource`; `?` on a decode error
propagates. The second component counts external lookup attempts. -/
def get_burned_nft_v2_from_write_resource (address : String)
    (decoded_object : Except String (Option ObjectWithMetadata))
    (txn_version write_set_change_index : Int) (txn_timestamp : Int)
    (prior_nft_ownership : List (String × NFTOwnershipV2))
    (tokens_burned : List (String × BurnEventRecord))
    (object_metadatas : List (String × ObjectAggregatedData))
    (db_context : Option DbContext) :
    Except String (Option (TokenOwnershipV2 × CurrentTokenOwnershipV2)) × Nat :=
  let token_data_id := standardize_address address
  match lookupA (standardize_address token_data_id) tokens_burned with
  | some _ =>
    match decoded_object with
    | .error e => (.error e, 0)
    | .ok (some object) =>
      let object_core := object.object_core
      let owner_address := object_core.owner
      let storage_id := token_data_id
      -- Faithful to the source: `.map(|obj| obj.untransferable.as_ref()).is_some()`
      -- tests only that the metadata entry exists, not that the marker is present.
      let is_soulbound :=
        if ((lookupA token_data_id object_metadatas).map
            (fun obj => obj.untransferable)).isSome then
          true
        else
          !object_core.allow_ungated_transfer
      let non_transferrable_by_owner := !object_core.allow_ungated_transfer
      (.ok (some (
        { transaction_version := txn_version
          write_set_change_index := write_set_change_index
          token_data_id := token_data_id
          property_version_v1 := BigDec.zero
          owner_address := some owner_address
          storage_id := storage_id
          amount := BigDec.zero
          table_type_v1 := none
          token_properties_mutated_v1 := none
          is_soulbound_v2 := some is_soulbound
          token_standard := tokenStandardV2
          is_fungible_v2 := some false
          transaction_timestamp := txn_timestamp
          non_transferrable_by_owner := some non_transferrable_by_owner },
        { token_data_id := token_data_id
          property_version_v1 := BigDec.zero
          owner_address := owner_address
          storage_id := storage_id
          amount := BigDec.zero
          table_type_v1 := none
          token_properties_mutated_v1 := none
          is_soulbound_v2 := some is_soulbound
          token_standard := tokenStandardV2
          is_fungible_v2 := some false
          last_transaction_version := txn_version
          last_transaction_timestamp := txn_timestamp
          non_transferrable_by_owner := some non_transferrable_by_owner })), 0)
    | .ok none =>
      get_burned_nft_v2_helper token_data_id txn_version write_set_change_index
        txn_timestamp prior_nft_ownership tokens_burned db_context
  | none => (.ok none, 0)

/-- `TokenOwnershipV2::get_burned_nft_v2_from_delete_resource`. -/
def get_burned_nft_v2_from_delete_resource (address : String)
    (txn_version write_set_change_index : Int) (txn_timestamp : Int)
    (prior_nft_ownership : List (String × NFTOwnershipV2))
    (tokens_burned : List (String × BurnEventRecord))
    (db_context : Option DbContext) :
    Except String (Option (TokenOwnershipV2 × CurrentTokenOwnershipV2)) × Nat :=
  let token_address := standardize_address address
  get_burned_nft_v2_helper token_address txn_version write_set_change_index
    txn_timestamp prior_nft_ownership tokens_burned db_context

/-- The `for (event_index, transfer_event) in &object_data.transfer_events`
loop of `TokenOwnershipV2::get_nft_v2_from_token_data`, with the two `Vec`
accumulators passed explicitly (`push` = append at the back, and an
`AHashMap::insert` sequence is kept as the ordered list of insertions). -/
def nft_transfer_loop (token_data : TokenDataV2) (token_data_id storage_id : String)
    (is_soulbound : Bool) :
    List (Int × TransferEvent) →
    List TokenOwnershipV2 →
    List (CurrentTokenOwnershipV2PK × CurrentTokenOwnershipV2) →
    List TokenOwnershipV2 × List (CurrentTokenOwnershipV2PK × CurrentTokenOwnershipV2)
  | [], ownerships, current_ownerships => (ownerships, current_ownerships)
  | (event_index, transfer_event) :: rest, ownerships, current_ownerships =>
    if transfer_event.to_address = transfer_event.from_address then
      nft_transfer_loop token_data token_data_id storage_id is_soulbound rest
        ownerships current_ownerships
    else
      nft_transfer_loop token_data token_data_id storage_id is_soulbound rest
        (ownerships ++ [
          { transaction_version := token_data.transaction_version
            write_set_change_index := -1 * event_index
            token_data_id := token_data_id
            property_version_v1 := BigDec.zero
            owner_address := some transfer_event.from_address
            storage_id := storage_id
            amount := BigDec.zero
            table_type_v1 := none
            token_properties_mutated_v1 := none
            is_soulbound_v2 := some is_soulbound
            token_standard := tokenStandardV2
            is_fungible_v2 := none
            transaction_timestamp := token_data.transaction_timestamp
            non_transferrable_by_owner := some is_soulbound }])
        (current_ownerships ++ [
          ((token_data_id, BigDec.zero, transfer_event.from_address, storage_id),
           { token_data_id := token_data_id
             property_version_v1 := BigDec.zero
             owner_address := transfer_event.from_address
             storage_id := storage_id
             amount := BigDec.zero
             table_type_v1 := none
             token_properties_mutated_v1 := none
             is_soulbound_v2 := some is_soulbound
             token_standard := tokenStandardV2
             is_fungible_v2 := none
             last_transaction_version := token_data.transaction_version
             last_transaction_timestamp := token_data.transaction_timestamp
             non_transferrable_by_owner := some is_soulbound })])

/-- `TokenOwnershipV2::get_nft_v2_from_token_data`. -/
def get_nft_v2_from_token_data (token_data : TokenDataV2)
    (object_metadatas : List (String × ObjectAggregatedData)) :
    Except String (List TokenOwnershipV2 ×
      List (CurrentTokenOwnershipV2PK × CurrentTokenOwnershipV2)) :=
  match lookupA token_data.token_data_id object_metadatas with
  | none => .error "If token data exists objectcore must exist"
  | some object_data =>
    let object_core := object_data.object.object_core
    let token_data_id := token_data.token_data_id
    let owner_address := object_core.owner
    let storage_id := token_data_id
    let is_soulbound :=
      if object_data.untransferable.isSome then true
      else !object_core.allow_ungated_transfer
    let non_transferrable_by_owner := !object_core.allow_ungated_transfer
    .ok (nft_transfer_loop token_data token_data_id storage_id is_soulbound
      object_data.transfer_events
      [{ transaction_version := token_data.transaction_version
         write_set_change_index := token_data.write_set_change_index
         token_data_id := token_data_id
         property_version_v1 := BigDec.zero
         owner_address := some owner_address
         storage_id := storage_id
         amount := BigDec.one
         table_type_v1 := none
         token_properties_mutated_v1 := none
         is_soulbound_v2 := some is_soulbound
         token_standard := tokenStandardV2
         is_fungible_v2 := none
         transaction_timestamp := token_data.transaction_timestamp
         non_transferrable_by_owner := some non_transferrable_by_owner }]
      [((token_data_id, BigDec.zero, owner_address, storage_id),
        { token_data_id := token_data_id
          property_version_v1 := BigDec.zero
          owner_address := owner_address
          storage_id := storage_id
          amount := BigDec.one
          table_type_v1 := none
          token_properties_mutated_v1 := none
          is_soulbound_v2 := some is_soulbound
          token_standard := tokenStandardV2
          is_fungible_v2 := none
          last_transaction_version := token_data.transaction_version
          last_transaction_timestamp := token_data.transaction_timestamp
          non_transferrable_by_owner := some non_transferrable_by_owner })])

/-- `TokenOwnershipV2::get_v1_from_write_table_item`. The table item is
given by its storage handle plus the (externally decoded) result of
`TokenWriteSet::from_table_item_type` projected to `Token` — exactly what
the `match` on `TokenWriteSet::Token` leaves; a decode error propagates
via `?`. -/
def get_v1_from_write_table_item (table_handle : String)
    (decoded : Except String (Option TokenV1))
    (txn_version write_set_change_index : Int) (txn_timestamp : Int)
    (table_handle_to_owner : List (String × TableMetadata))
    (token_v1_aggregated_events : List (String × TokenV1AggregatedEvents)) :
    Except String (Option (TokenOwnershipV2 × Option CurrentTokenOwnershipV2)) :=
  match decoded with
  | .error e => .error e
  | .ok maybe_token =>
    match maybe_token with
    | some token =>
      let table_handle := standardize_address table_handle
      let amount := ensure_not_negative token.amount
      let token_id_struct := token.id
      let token_data_id := token_id_struct.token_data_id
      let owner_address : Option String :=
        match lookupA table_handle table_handle_to_owner with
        | some tm =>
          if tm.table_type = V1_TOKEN_STORE_TABLE_TYPE then
            some tm.owner_address
          else
            ((lookupA token_data_id token_v1_aggregated_events).bind
              (fun events => events.deposit_module_events.getLast?)).bind
              (fun e => e.to_address)
        | none =>
          ((lookupA token_data_id token_v1_aggregated_events).bind
            (fun events => events.deposit_module_events.getLast?)).bind
            (fun e => e.to_address)
      match owner_address with
      | none => .ok none
      | some owner_address =>
        .ok (some (
          { transaction_version := txn_version
            write_set_change_index := write_set_change_index
            token_data_id := token_data_id
            property_version_v1 := token_id_struct.property_version
            owner_address := some owner_address
            storage_id := table_handle
            amount := amount
            table_type_v1 := some V1_TOKEN_STORE_TABLE_TYPE
            token_properties_mutated_v1 := some token.token_properties
            is_soulbound_v2 := none
            token_standard := tokenStandardV1
            is_fungible_v2 := none
            transaction_timestamp := txn_timestamp
            non_transferrable_by_owner := none },
          some
          { token_data_id := token_data_id
            property_version_v1 := token_id_struct.property_version
            owner_address := owner_address
            storage_id := table_handle
            amount := amount
            table_type_v1 := some V1_TOKEN_STORE_TABLE_TYPE
            token_properties_mutated_v1 := some token.token_properties
            is_soulbound_v2 := none
            token_standard := tokenStandardV1
            is_fungible_v2 := none
            last_transaction_version := txn_version
            last_transaction_timestamp := txn_timestamp
            non_transferrable_by_owner := none }))
    | none => .ok none

/-- `TokenOwnershipV2::get_v1_from_delete_table_item`. The table item is
given by its storage handle plus the (externally decoded) result of
`TokenWriteSet::from_table_item_type` projected to `TokenId`. -/
def get_v1_from_delete_table_item (table_handle : String)
    (decoded : Except String (Option TokenIdStruct))
    (txn_version write_set_change_index : Int) (txn_timestamp : Int)
    (table_handle_to_owner : List (String × TableMetadata))
    (token_v1_aggregated_events : List (String × TokenV1AggregatedEvents)) :
    Except String (Option (TokenOwnershipV2 × Option CurrentTokenOwnershipV2)) :=
  match decoded with
  | .error e => .error e
  | .ok maybe_token_id =>
    match maybe_token_id with
    | some token_id_struct =>
      let table_handle := standardize_address table_handle
      let token_data_id := token_id_struct.token_data_id
      let owner_address : Option String :=
        match lookupA table_handle table_handle_to_owner with
        | some tm =>
          if tm.table_type = V1_TOKEN_STORE_TABLE_TYPE then
            some tm.owner_address
          else
            ((lookupA token_data_id token_v1_aggregated_events).bind
              (fun events => events.withdraw_module_events.head?)).bind
              (fun e => e.from_address)
        | none =>
          ((lookupA token_data_id token_v1_aggregated_events).bind
            (fun events => events.withdraw_module_events.head?)).bind
            (fun e => e.from_address)
      match owner_address with
      | none => .ok none
      | some owner_address =>
        .ok (some (
          { transaction_version := txn_version
            write_set_change_index := write_set_change_index
            token_data_id := token_data_id
            property_version_v1 := token_id_struct.property_version
            owner_address := some owner_address
            storage_id := table_handle
            amount := BigDec.zero
            table_type_v1 := some V1_TOKEN_STORE_TABLE_TYPE
            token_properties_mutated_v1 := none
            is_soulbound_v2 := none
            token_standard := tokenStandardV1
            is_fungible_v2 := none
            transaction_timestamp := txn_timestamp
            non_transferrable_by_owner := none },
          some
          { token_data_id := token_data_id
            property_version_v1 := token_id_struct.property_version
            owner_address := owner_address
            storage_id := table_handle
            amount := BigDec.zero
            table_type_v1 := some V1_TOKEN_STORE_TABLE_TYPE
            token_properties_mutated_v1 := none
            is_soulbound_v2 := none
            token_standard := tokenStandardV1
            is_fungible_v2 := none
            last_transaction_version := txn_version
            last_transaction_timestamp := txn_timestamp
            non_transferrable_by_owner := none }))
    | none => .ok none

/-- Decimal digit to its character, for rendering numeric strings. -/
def digitToChar (d : Nat) : Char := Char.ofNat (48 + d)

/-- Big-endian base-10 digit list of a natural number, with `0` rendered as
the single digit `0` (as `BigInt::to_str_radix` does). -/
def bigDigits (n : Nat) : List Nat :=
  if n = 0 then [0] else (Nat.digits 10 n).reverse

/-- `bigdecimal::BigDecimal`'s `Display` rendering as a character list:
the absolute integer digits placed around a decimal point according to the
scale, preceded by a minus sign for negative values (plain notation, the
crate's behaviour). -/
def BigDec.render (x : BigDec) : List Char :=
  let ds := bigDigits x.int_val.natAbs
  let core : List Char :=
    if x.scale ≤ 0 then
      (ds ++ List.replicate (-x.scale).toNat 0).map digitToChar
    else
      let k := x.scale.toNat
      if ds.length ≤ k then
        '0' :: '.' :: ((List.replicate (k - ds.length) 0 ++ ds).map digitToChar)
      else
        ((ds.take (ds.length - k)).map digitToChar) ++
          '.' :: ((ds.drop (ds.length - k)).map digitToChar)
  if x.int_val < 0 then '-' :: core else core

/-- `BigDecimal::to_string()`. -/
def BigDec.to_string (x : BigDec) : String := String.mk x.render

/-- `bigdecimal`'s `ToPrimitive::to_u64`: `None` for any negative decimal
(the crate tests the sign of the unscaled integer), otherwise the value
truncated toward zero provided it fits in 64 bits. -/
def BigDec.to_u64 (x : BigDec) : Option Nat :=
  if x.int_val < 0 then none
  else
    let t : Int :=
      if 0 ≤ x.scale then x.int_val / (10 : Int) ^ x.scale.toNat
      else x.int_val * (10 : Int) ^ (-x.scale).toNat
    if t < 2 ^ 64 then some t.toNat else none

/-- Integer to its decimal string. -/
def intToDecString (n : Int) : String :=
  String.mk ((if n < 0 then ['-'] else []) ++ (bigDigits n.natAbs).map digitToChar)

/-- JSON string escaping (quote and backslash; control-character escapes are
elided — no claim inspects escaped content). -/
def escape_json_char (c : Char) : List Char :=
  if c = '"' then ['\\', '"']
  else if c = '\\' then ['\\', '\\']
  else [c]

/-- A JSON string literal with surrounding quotes. -/
def escape_json_string (s : String) : String :=
  String.mk ('"' :: (s.data.flatMap escape_json_char) ++ ['"'])

mutual

/-- `serde_json::Value::to_string()`: the compact JSON rendering, in the
value's stored field order. Total — the `Display` of `serde_json::Value`
cannot fail. -/
def serde_to_string : JsonValue → String
  | .null => "null"
  | .bool b => if b then "true" else "false"
  | .intNum n => intToDecString n
  | .floatNum r => r
  | .str s => escape_json_string s
  | .arr xs => "[" ++ String.intercalate "," (serde_list xs) ++ "]"
  | .obj fs => "\x7b" ++ String.intercalate "," (serde_fields fs) ++ "\x7d"

/-- Renders each array element. -/
def serde_list : List JsonValue → List String
  | [] => []
  | x :: xs => serde_to_string x :: serde_list xs

/-- Renders each object member as `"key":value`. -/
def serde_fields : List (String × JsonValue) → List String
  | [] => []
  | (k, v) :: fs => (escape_json_string k ++ ":" ++ serde_to_string v) :: serde_fields fs

end

/-- Insert a rendered object member into a list sorted by raw key. -/
def insert_by_key (p : String × String) : List (String × String) → List (String × String)
  | [] => [p]
  | q :: t => if p.1 ≤ q.1 then p :: q :: t else q :: insert_by_key p t

/-- Sort rendered object members by raw key (canonical JSON orders object
members by key). -/
def sort_by_key (l : List (String × String)) : List (String × String) :=
  l.foldr insert_by_key []

mutual

/-- `canonical_json::to_string`: canonical JSON — object members sorted by
key — which cannot represent floating-point numbers and therefore fails
(`none`, the `Err` case) exactly when the value contains one. -/
def canonical_to_string : JsonValue → Option String
  | .null => some "null"
  | .bool b => some (if b then "true" else "false")
  | .intNum n => some (intToDecString n)
  | .floatNum _ => none
  | .str s => some (escape_json_string s)
  | .arr xs =>
    (canonical_list xs).map (fun parts => "[" ++ String.intercalate "," parts ++ "]")
  | .obj fs =>
    (canonical_fields fs).map (fun kvs =>
      "\x7b" ++ String.intercalate ","
        ((sort_by_key kvs).map (fun kv => escape_json_string kv.1 ++ ":" ++ kv.2)) ++ "\x7d")

/-- Canonically renders each array element, failing if any element does. -/
def canonical_list : List JsonValue → Option (List String)
  | [] => some []
  | x :: xs =>
    match canonical_to_string x, canonical_list xs with
    | some s, some t => some (s :: t)
    | _, _ => none

/-- Canonically renders each object member to `(raw key, rendered value)`,
failing if any value does. -/
def canonical_fields : List (String × JsonValue) → Option (List (String × String))
  | [] => some []
  | (k, v) :: fs =>
    match canonical_to_string v, canonical_fields fs with
    | some s, some t => some ((k, s) :: t)
    | _, _ => none

end

/-- `ParquetTokenOwnershipV2` (the columnar ownership-event shape);
`property_version_v1` is a `u64`, modelled as `Nat` (the conversion below
only ever stores values below `2 ^ 64`). -/
structure ParquetTokenOwnershipV2 where
  txn_version : Int
  write_set_change_index : Int
  token_data_id : String
  property_version_v1 : Nat
  owner_address : Option String
  storage_id : String
  amount : String
  table_type_v1 : Option String
  token_properties_mutated_v1 : Option String
  is_soulbound_v2 : Option Bool
  token_standard : String
  block_timestamp : Int
  non_transferrable_by_owner : Option Bool

/-- `impl From<TokenOwnershipV2> for ParquetTokenOwnershipV2`. The source
calls `.to_u64().unwrap()` on `property_version_v1`; the panic of a failed
`unwrap` is modelled as `none`. -/
def ParquetTokenOwnershipV2.from (raw_item : TokenOwnershipV2) :
    Option ParquetTokenOwnershipV2 :=
  match raw_item.property_version_v1.to_u64 with
  | none => none
  | some pv =>
    some
    { txn_version := raw_item.transaction_version
      write_set_change_index := raw_item.write_set_change_index
      token_data_id := raw_item.token_data_id
      property_version_v1 := pv
      owner_address := raw_item.owner_address
      storage_id := raw_item.storage_id
      amount := raw_item.amount.to_string
      table_type_v1 := raw_item.table_type_v1
      token_properties_mutated_v1 :=
        raw_item.token_properties_mutated_v1.map (fun v => serde_to_string v)
      is_soulbound_v2 := raw_item.is_soulbound_v2
      token_standard := raw_item.token_standard
      block_timestamp := raw_item.transaction_timestamp
      non_transferrable_by_owner := raw_item.non_transferrable_by_owner }

/-- `ParquetCurrentTokenOwnershipV2` (the columnar current-ownership
shape). -/
structure ParquetCurrentTokenOwnershipV2 where
  token_data_id : String
  property_version_v1 : Nat
  owner_address : String
  storage_id : String
  amount : String
  table_type_v1 : Option String
  token_properties_mutated_v1 : Option String
  is_soulbound_v2 : Option Bool
  token_standard : String
  is_fungible_v2 : Option Bool
  last_transaction_version : Int
  last_transaction_timestamp : Int
  non_transferrable_by_owner : Option Bool

/-- `impl From<CurrentTokenOwnershipV2> for ParquetCurrentTokenOwnershipV2`;
`.and_then(|v| canonical_json::to_string(&v).ok()).or_else(|| Some(DEFAULT_NONE))`
becomes `bind` followed by `orElse`, and the `.unwrap()` panic is `none`. -/
def ParquetCurrentTokenOwnershipV2.from (raw_item : CurrentTokenOwnershipV2) :
    Option ParquetCurrentTokenOwnershipV2 :=
  match raw_item.property_version_v1.to_u64 with
  | none => none
  | some pv =>
    some
    { token_data_id := raw_item.token_data_id
      property_version_v1 := pv
      owner_address := raw_item.owner_address
      storage_id := raw_item.storage_id
      amount := raw_item.amount.to_string
      table_type_v1 := raw_item.table_type_v1
      token_properties_mutated_v1 :=
        (raw_item.token_properties_mutated_v1.bind
          (fun v => canonical_to_string v)).orElse
          (fun _ => some DEFAULT_NONE)
      is_soulbound_v2 := raw_item.is_soulbound_v2
      token_standard := raw_item.token_standard
      is_fungible_v2 := raw_item.is_fungible_v2
      last_transaction_version := raw_item.last_transaction_version
      last_transaction_timestamp := raw_item.last_transaction_timestamp
      non_transferrable_by_owner := raw_item.non_transferrable_by_owner }

/-- `PostgresCurrentTokenOwnershipV2` (the row shape). -/
structure PostgresCurrentTokenOwnershipV2 where
  token_data_id : String
  property_version_v1 : BigDec
  owner_address : String
  storage_id : String
  amount : BigDec
  table_type_v1 : Option String
  token_properties_mutated_v1 : Option JsonValue
  is_soulbound_v2 : Option Bool
  token_standard : String
  is_fungible_v2 : Option Bool
  last_transaction_version : Int
  last_transaction_timestamp : Int
  non_transferrable_by_owner : Option Bool

/-- `impl From<CurrentTokenOwnershipV2> for PostgresCurrentTokenOwnershipV2`:
a plain field-for-field move, total. -/
def PostgresCurrentTokenOwnershipV2.from (raw_item : CurrentTokenOwnershipV2) :
    PostgresCurrentTokenOwnershipV2 :=
  { token_data_id := raw_item.token_data_id
    property_version_v1 := raw_item.property_version_v1
    owner_address := raw_item.owner_address
    storage_id := raw_item.storage_id
    amount := raw_item.amount
    table_type_v1 := raw_item.table_type_v1
    token_properties_mutated_v1 := raw_item.token_properties_mutated_v1
    is_soulbound_v2 := raw_item.is_soulbound_v2
    token_standard := raw_item.token_standard
    is_fungible_v2 := raw_item.is_fungible_v2
    last_transaction_version := raw_item.last_transaction_version
    last_transaction_timestamp := raw_item.last_transaction_timestamp
    non_transferrable_by_owner := raw_item.non_transferrable_by_owner }

/-- Inverse of `digitToChar` on decimal digit characters. -/
def charToDigit (c : Char) : Option Nat :=
  if 48 ≤ c.toNat ∧ c.toNat ≤ 57 then some (c.toNat - 48) else none

/-- Horner accumulation of a big-endian digit list. -/
def digitsVal : Nat → List Nat → Nat
  | acc, [] => acc
  | acc, d :: t => digitsVal (acc * 10 + d) t

/-- Parse every character as a decimal digit. -/
def parseDigitList : List Char → Option (List Nat)
  | [] => some []
  | c :: t =>
    match charToDigit c, parseDigitList t with
    | some d, some ds => some (d :: ds)
    | _, _ => none

/-- Split a character list at the first decimal point, if any. -/
def splitAtDot : List Char → List Char × Option (List Char)
  | [] => ([], none)
  | c :: t =>
    if c = '.' then ([], some t)
    else
      let r := splitAtDot t
      (c :: r.1, r.2)

/-- Reference decoder for an unsigned plain decimal string: integer part,
optionally a point and a fractional part. -/
def decodeUnsignedChars (cs : List Char) : Option ℚ :=
  let ip := (splitAtDot cs).1
  match parseDigitList ip with
  | none => none
  | some ds =>
    if ip = [] then none
    else
      match (splitAtDot cs).2 with
      | none => some (digitsVal 0 ds : ℚ)
      | some fracChars =>
        match parseDigitList fracChars with
        | none => none
        | some fs =>
          if fracChars = [] then none
          else some ((digitsVal 0 ds : ℚ) +
            (digitsVal 0 fs : ℚ) / (10 : ℚ) ^ fracChars.length)

/-- Reference decoder for a signed plain decimal string. -/
def decodeDecChars (cs : List Char) : Option ℚ :=
  match cs with
  | [] => none
  | c :: rest =>
    if c = '-' then (decodeUnsignedChars rest).map (fun q => -q)
    else decodeUnsignedChars (c :: rest)

/-- Reference decoder, on strings. -/
def decode_decimal (s : String) : Option ℚ := decodeDecChars s.data

/-- Unfolding equation for one iteration of the retry loop. -/
theorem nft_lookup_go_eq (store : Nat → Option CurrentTokenOwnershipV2Query)
    (token_data_id : String) (query_retries tried : Nat) :
    nft_lookup_go store token_data_id query_retries tried =
      if tried < query_retries then
        match store (tried + 1) with
        | some inner =>
            (.ok ⟨inner.token_data_id, inner.owner_address, inner.is_soulbound_v2⟩, tried + 1)
        | none => nft_lookup_go store token_data_id query_retries (tried + 1)
      else
        (.error ("Failed to get nft by token data id: " ++ token_data_id), tried) := by
  rw [nft_lookup_go]

/-- If the first successful attempt after `tried` is attempt `j ≤ retries`,
the loop stops there: it returns the store's answer and has issued exactly
`j` attempts in total. -/
theorem nft_lookup_go_first_success
    (store : Nat → Option CurrentTokenOwnershipV2Query) (token_data_id : String)
    (query_retries j : Nat) (row : CurrentTokenOwnershipV2Query)
    (hjr : j ≤ query_retries) (hrow : store j = some row) :
    ∀ d tried, j - tried = d → tried < j →
      (∀ i, tried < i → i < j → store i = none) →
      nft_lookup_go store token_data_id query_retries tried =
        (.ok ⟨row.token_data_id, row.owner_address, row.is_soulbound_v2⟩, j) := by
  intro d
  induction d with
  | zero => intro tried hd htj _; omega
  | succ n ih =>
    intro tried hd htj hnone
    rw [nft_lookup_go_eq]
    have htr : tried < query_retries := by omega
    rw [if_pos htr]
    rcases Nat.lt_or_ge (tried + 1) j with hlt | hge
    · have : store (tried + 1) = none := hnone (tried + 1) (by omega) hlt
      rw [this]
      exact ih (tried + 1) (by omega) hlt (fun i hi hij => hnone i (by omega) hij)
    · have hj : tried + 1 = j := by omega
      rw [hj, hrow]

/-- If every attempt up to the configured count fails, the loop exhausts the
budget: it returns the error and has issued exactly `retries` attempts. -/
theorem nft_lookup_go_all_fail
    (store : Nat → Option CurrentTokenOwnershipV2Query) (token_data_id : String)
    (query_retries : Nat)
    (hfail : ∀ i, store i = none) :
    ∀ d tried, query_retries - tried = d → tried ≤ query_retries →
      nft_lookup_go store token_data_id query_retries tried =
        (.error ("Failed to get nft by token data id: " ++ token_data_id),
          query_retries) := by
  intro d
  induction d with
  | zero =>
    intro tried hd hle
    have : tried = query_retries := by omega
    rw [nft_lookup_go_eq, this, if_neg (lt_irrefl query_retries)]
  | succ n ih =>
    intro tried hd hle
    rw [nft_lookup_go_eq, if_pos (by omega : tried < query_retries), hfail (tried + 1)]
    exact ih (tried + 1) (by omega) (by omega)

/-- The loop never issues more attempts than the configured count. -/
theorem nft_lookup_go_attempts_le
    (store : Nat → Option CurrentTokenOwnershipV2Query) (token_data_id : String)
    (query_retries : Nat) :
    ∀ d tried, query_retries - tried = d → tried ≤ query_retries →
      (nft_lookup_go store token_data_id query_retries tried).2 ≤ query_retries := by
  intro d
  induction d with
  | zero =>
    intro tried hd hle
    have : tried = query_retries := by omega
    rw [nft_lookup_go_eq, this, if_neg (lt_irrefl query_retries)]
  | succ n ih =>
    intro tried hd hle
    rw [nft_lookup_go_eq, if_pos (by omega : tried < query_retries)]
    match hs : store (tried + 1) with
    | some inner => simpa using by omega
    | none => exact ih (tried + 1) (by omega) (by omega)

/-- C1: Burn fallback tier order. When a burned asset's previous owner must
be resolved, the resolver tries, in order and each tier only if the prior
yields nothing: (1) the previous-owner address embedded in the burn event,
(2) the prior-ownership cache entry for the token address, (3) an external
store lookup issuing at most the configured number of attempts and
returning the first successful answer (with first success at attempt `j`,
exactly `j` attempts are issued — in particular, with retry count 3 and the
store failing twice then succeeding, exactly 3 attempts); only when all
tiers fail is the sentinel unknown-owner address substituted, and the
resolver never returns an error for an unresolvable owner. -/
theorem burn_fallback_tier_order :
    -- tier 1: the embedded previous owner wins, no lookup attempt is made
    (∀ (addr : String) (v i ts : Int) cache burned db be p,
      lookupA addr burned = some be →
      be.previous_owner_address = some p →
      ∃ own cur,
        get_burned_nft_v2_helper addr v i ts cache burned db = (.ok (some (own, cur)), 0) ∧
        own.owner_address = some p ∧ cur.owner_address = p)
  ∧ -- tier 2: without an embedded owner, the cache entry wins, no lookup attempt
    (∀ (addr : String) (v i ts : Int) cache burned db be c,
      lookupA addr burned = some be →
      be.previous_owner_address = none →
      lookupA addr cache = some c →
      ∃ own cur,
        get_burned_nft_v2_helper addr v i ts cache burned db = (.ok (some (own, cur)), 0) ∧
        own.owner_address = some c.owner_address ∧ cur.owner_address = c.owner_address)
  ∧ -- tier 3: store answer at the first successful attempt j, exactly j attempts
    (∀ (addr : String) (v i ts : Int) cache burned (db : DbContext) be j row,
      lookupA addr burned = some be →
      be.previous_owner_address = none →
      lookupA addr cache = none →
      0 < j → j ≤ db.query_retries →
      db.store j = some row →
      (∀ k, 0 < k → k < j → db.store k = none) →
      ∃ own cur,
        get_burned_nft_v2_helper addr v i ts cache burned (some db) =
          (.ok (some (own, cur)), j) ∧
        own.owner_address = some row.owner_address ∧
        cur.owner_address = row.owner_address)
  ∧ -- tier exhaustion: sentinel owner, still a success, exactly `retries` attempts
    (∀ (addr : String) (v i ts : Int) cache burned (db : DbContext) be,
      lookupA addr burned = some be →
      be.previous_owner_address = none →
      lookupA addr cache = none →
      (∀ k, db.store k = none) →
      ∃ own cur,
        get_burned_nft_v2_helper addr v i ts cache burned (some db) =
          (.ok (some (own, cur)), db.query_retries) ∧
        own.owner_address = some DEFAULT_OWNER_ADDRESS ∧
        cur.owner_address = DEFAULT_OWNER_ADDRESS)
  ∧ -- at most the configured number of attempts, whatever the store does
    (∀ (addr : String) (v i ts : Int) cache burned (db : DbContext),
      (get_burned_nft_v2_helper addr v i ts cache burned (some db)).2 ≤ db.query_retries)
  ∧ -- the helper never surfaces an error
    (∀ (addr : String) (v i ts : Int) cache burned db,
      ∃ r n, get_burned_nft_v2_helper addr v i ts cache burned db = (.ok r, n)) := by
  refine ⟨?_, ?_, ?_, ?_, ?_, ?_⟩
  · intro addr v i ts cache burned db be p h1 h2
    simp only [get_burned_nft_v2_helper, standardize_address, h1, h2]
    exact ⟨_, _, rfl, rfl, rfl⟩
  · intro addr v i ts cache burned db be c h1 h2 h3
    simp only [get_burned_nft_v2_helper, standardize_address, h1, h2, h3]
    exact ⟨_, _, rfl, rfl, rfl⟩
  · intro addr v i ts cache burned db be j row h1 h2 h3 hj hjr hrow hnone
    have hgo : get_latest_owned_nft_by_token_data_id db.store addr db.query_retries =
        (.ok ⟨row.token_data_id, row.owner_address, row.is_soulbound_v2⟩, j) :=
      nft_lookup_go_first_success db.store addr db.query_retries j row hjr hrow
        j 0 (by omega) hj (fun k hk hkj => hnone k hk hkj)
    simp only [get_burned_nft_v2_helper, standardize_address, h1, h2, h3, hgo]
    exact ⟨_, _, rfl, rfl, rfl⟩
  · intro addr v i ts cache burned db be h1 h2 h3 hfail
    have hgo : get_latest_owned_nft_by_token_data_id db.store addr db.query_retries =
        (.error ("Failed to get nft by token data id: " ++ addr), db.query_retries) :=
      nft_lookup_go_all_fail db.store addr db.query_retries hfail db.query_retries 0
        (by omega) (by omega)
    simp only [get_burned_nft_v2_helper, standardize_address, h1, h2, h3, hgo]
    exact ⟨_, _, rfl, rfl, rfl⟩
  · intro addr v i ts cache burned db
    simp only [get_burned_nft_v2_helper, standardize_address]
    match h1 : lookupA addr burned with
    | none => simp
    | some be =>
      simp only [h1]
      match h2 : be.previous_owner_address with
      | some p => simp [h2]
      | none =>
        simp only [h2]
        match h3 : lookupA addr cache with
        | some c => simp [h3]
        | none =>
          simp only [h3]
          have hb := nft_lookup_go_attempts_le db.store addr db.query_retries
            db.query_retries 0 (by omega) (by omega)
          match hgo : get_latest_owned_nft_by_token_data_id db.store addr db.query_retries with
          | (.ok nft, attempts) =>
            simp only [hgo]
            rw [get_latest_owned_nft_by_token_data_id] at hgo
            rw [hgo] at hb
            simpa using hb
          | (.error e, attempts) =>
            simp only [hgo]
            rw [get_latest_owned_nft_by_token_data_id] at hgo
            rw [hgo] at hb
            simpa using hb
  · intro addr v i ts cache burned db
    simp only [get_burned_nft_v2_helper, standardize_address]
    match h1 : lookupA addr burned with
    | none => exact ⟨none, 0, rfl⟩
    | some be => exact ⟨_, _, rfl⟩

/-- Witness for `burn_fallback_tier_order` at concrete inputs; the third
conjunct is the spec's acceptance scenario: retry count 3, the store failing
twice then succeeding, exactly 3 attempts, the store's answer returned. -/
theorem burn_fallback_tier_order_witness :
    (∃ own cur,
      get_burned_nft_v2_helper "0xt" 1 2 3 []
        [("0xt", ⟨some "0xp"⟩)] none = (.ok (some (own, cur)), 0) ∧
      own.owner_address = some "0xp" ∧ cur.owner_address = "0xp")
  ∧ (∃ own cur,
      get_burned_nft_v2_helper "0xt" 1 2 3 [("0xt", ⟨"0xt", "0xc", none⟩)]
        [("0xt", ⟨none⟩)] none = (.ok (some (own, cur)), 0) ∧
      own.owner_address = some "0xc" ∧ cur.owner_address = "0xc")
  ∧ (∃ own cur,
      get_burned_nft_v2_helper "0xt" 1 2 3 [] [("0xt", ⟨none⟩)]
        (some ⟨fun n => if n = 3 then some ⟨"0xt", "0xowner", none⟩ else none, 3, 100⟩) =
        (.ok (some (own, cur)), 3) ∧
      own.owner_address = some "0xowner" ∧ cur.owner_address = "0xowner")
  ∧ (∃ own cur,
      get_burned_nft_v2_helper "0xt" 1 2 3 [] [("0xt", ⟨none⟩)]
        (some ⟨fun _ => none, 3, 100⟩) = (.ok (some (own, cur)), 3) ∧
      own.owner_address = some DEFAULT_OWNER_ADDRESS ∧
      cur.owner_address = DEFAULT_OWNER_ADDRESS)
  ∧ (get_burned_nft_v2_helper "0xt" 1 2 3 [] [("0xt", ⟨none⟩)]
      (some ⟨fun _ => none, 3, 100⟩)).2 ≤ 3
  ∧ (∃ r n, get_burned_nft_v2_helper "0xt" 1 2 3 [] [] none = (.ok r, n)) := by
  refine ⟨?_, ?_, ?_, ?_, ?_, ?_⟩
  · exact burn_fallback_tier_order.1 "0xt" 1 2 3 [] [("0xt", ⟨some "0xp"⟩)] none
      ⟨some "0xp"⟩ "0xp" rfl rfl
  · exact burn_fallback_tier_order.2.1 "0xt" 1 2 3 [("0xt", ⟨"0xt", "0xc", none⟩)]
      [("0xt", ⟨none⟩)] none ⟨none⟩ ⟨"0xt", "0xc", none⟩ rfl rfl rfl
  · exact burn_fallback_tier_order.2.2.1 "0xt" 1 2 3 [] [("0xt", ⟨none⟩)]
      ⟨fun n => if n = 3 then some ⟨"0xt", "0xowner", none⟩ else none, 3, 100⟩
      ⟨none⟩ 3 ⟨"0xt", "0xowner", none⟩ rfl rfl rfl (by decide) (by decide) rfl
      (by intro k h1 h2; interval_cases k <;> rfl)
  · exact burn_fallback_tier_order.2.2.2.1 "0xt" 1 2 3 [] [("0xt", ⟨none⟩)]
      ⟨fun _ => none, 3, 100⟩ ⟨none⟩ rfl rfl rfl (fun _ => rfl)
  · exact burn_fallback_tier_order.2.2.2.2.1 "0xt" 1 2 3 [] [("0xt", ⟨none⟩)]
      ⟨fun _ => none, 3, 100⟩
  · exact burn_fallback_tier_order.2.2.2.2.2 "0xt" 1 2 3 [] [] none

/-- C10: When the burn resolver runs with no database context and neither
the burn event's embedded previous owner nor the prior-ownership cache
yields an owner, the external-store tier is skipped entirely — zero lookup
attempts — and the sentinel unknown-owner address is used as the previous
owner, the call still succeeding and emitting records. -/
theorem burn_resolver_no_db_context_skips_lookup
    (addr : String) (v i ts : Int)
    (cache : List (String × NFTOwnershipV2))
    (burned : List (String × BurnEventRecord)) (be : BurnEventRecord)
    (h1 : lookupA addr burned = some be)
    (h2 : be.previous_owner_address = none)
    (h3 : lookupA addr cache = none) :
    ∃ own cur,
      get_burned_nft_v2_helper addr v i ts cache burned none =
        (.ok (some (own, cur)), 0) ∧
      own.owner_address = some DEFAULT_OWNER_ADDRESS ∧
      cur.owner_address = DEFAULT_OWNER_ADDRESS := by
  simp only [get_burned_nft_v2_helper, standardize_address, h1, h2, h3]
  exact ⟨_, _, rfl, rfl, rfl⟩

/-- Witness for `burn_resolver_no_db_context_skips_lookup` at a concrete
burned token with an old-style burn event and an empty cache. -/
theorem burn_resolver_no_db_context_skips_lookup_witness :
    ∃ own cur,
      get_burned_nft_v2_helper "0xt" 1 2 3 [] [("0xt", ⟨none⟩)] none =
        (.ok (some (own, cur)), 0) ∧
      own.owner_address = some DEFAULT_OWNER_ADDRESS ∧
      cur.owner_address = DEFAULT_OWNER_ADDRESS :=
  burn_resolver_no_db_context_skips_lookup "0xt" 1 2 3 [] [("0xt", ⟨none⟩)]
    ⟨none⟩ rfl rfl rfl

/-- C2: Legacy (V1) owner resolution is a two-tier lookup for both
table-item writes and deletes: tier (a) uses the handle-to-owner index
entry only when that entry's table type equals the canonical V1 token-store
table type; otherwise tier (b) uses the last deposit event (writes) or the
first withdraw event (deletes) recorded against the token's asset identity
in the aggregated-events mapping; if neither tier yields an owner the
function returns successfully with no record. Concretely, a write to a
handle with no index entry whose asset has a deposit event to address `X`
resolves the owner to `X`. -/
theorem v1_owner_two_tier_resolution :
    -- tier (a), writes: a matching-type index entry wins
    (∀ (handle : String) (token : TokenV1) (v i ts : Int) thto agg tm,
      lookupA handle thto = some tm →
      tm.table_type = V1_TOKEN_STORE_TABLE_TYPE →
      ∃ own cur,
        get_v1_from_write_table_item handle (.ok (some token)) v i ts thto agg =
          .ok (some (own, some cur)) ∧
        own.owner_address = some tm.owner_address ∧
        cur.owner_address = tm.owner_address)
  ∧ -- tier (a), deletes
    (∀ (handle : String) (token_id : TokenIdStruct) (v i ts : Int) thto agg tm,
      lookupA handle thto = some tm →
      tm.table_type = V1_TOKEN_STORE_TABLE_TYPE →
      ∃ own cur,
        get_v1_from_delete_table_item handle (.ok (some token_id)) v i ts thto agg =
          .ok (some (own, some cur)) ∧
        own.owner_address = some tm.owner_address ∧
        cur.owner_address = tm.owner_address)
  ∧ -- tier (b), writes, no index entry: the last deposit event resolves
    (∀ (handle : String) (token : TokenV1) (v i ts : Int) thto agg evs dep X,
      lookupA handle thto = none →
      lookupA token.id.token_data_id agg = some evs →
      evs.deposit_module_events.getLast? = some dep →
      dep.to_address = some X →
      ∃ own cur,
        get_v1_from_write_table_item handle (.ok (some token)) v i ts thto agg =
          .ok (some (own, some cur)) ∧
        own.owner_address = some X ∧ cur.owner_address = X)
  ∧ -- tier (b), writes, index entry of the wrong table type is rejected
    (∀ (handle : String) (token : TokenV1) (v i ts : Int) thto agg tm evs dep X,
      lookupA handle thto = some tm →
      tm.table_type ≠ V1_TOKEN_STORE_TABLE_TYPE →
      lookupA token.id.token_data_id agg = some evs →
      evs.deposit_module_events.getLast? = some dep →
      dep.to_address = some X →
      ∃ own cur,
        get_v1_from_write_table_item handle (.ok (some token)) v i ts thto agg =
          .ok (some (own, some cur)) ∧
        own.owner_address = some X ∧ cur.owner_address = X)
  ∧ -- tier (b), deletes, no index entry: the first withdraw event resolves
    (∀ (handle : String) (token_id : TokenIdStruct) (v i ts : Int) thto agg evs wd X,
      lookupA handle thto = none →
      lookupA token_id.token_data_id agg = some evs →
      evs.withdraw_module_events.head? = some wd →
      wd.from_address = some X →
      ∃ own cur,
        get_v1_from_delete_table_item handle (.ok (some token_id)) v i ts thto agg =
          .ok (some (own, some cur)) ∧
        own.owner_address = some X ∧ cur.owner_address = X)
  ∧ -- neither tier, writes: success with no record
    (∀ (handle : String) (token : TokenV1) (v i ts : Int) thto agg,
      lookupA handle thto = none →
      lookupA token.id.token_data_id agg = none →
      get_v1_from_write_table_item handle (.ok (some token)) v i ts thto agg = .ok none)
  ∧ -- neither tier, deletes: success with no record
    (∀ (handle : String) (token_id : TokenIdStruct) (v i ts : Int) thto agg,
      lookupA handle thto = none →
      lookupA token_id.token_data_id agg = none →
      get_v1_from_delete_table_item handle (.ok (some token_id)) v i ts thto agg =
        .ok none) := by
  refine ⟨?_, ?_, ?_, ?_, ?_, ?_, ?_⟩
  · intro handle token v i ts thto agg tm h1 h2
    simp only [get_v1_from_write_table_item, standardize_address, h1, if_pos h2]
    exact ⟨_, _, rfl, rfl, rfl⟩
  · intro handle token_id v i ts thto agg tm h1 h2
    simp only [get_v1_from_delete_table_item, standardize_address, h1, if_pos h2]
    exact ⟨_, _, rfl, rfl, rfl⟩
  · intro handle token v i ts thto agg evs dep X h1 h2 h3 h4
    simp only [get_v1_from_write_table_item, standardize_address, h1, h2, h3, h4,
      Option.bind_some, Option.some_bind]
    exact ⟨_, _, rfl, rfl, rfl⟩
  · intro handle token v i ts thto agg tm evs dep X h1 h2 h3 h4 h5
    simp only [get_v1_from_write_table_item, standardize_address, h1, if_neg h2, h3,
      h4, h5, Option.bind_some, Option.some_bind]
    exact ⟨_, _, rfl, rfl, rfl⟩
  · intro handle token_id v i ts thto agg evs wd X h1 h2 h3 h4
    simp only [get_v1_from_delete_table_item, standardize_address, h1, h2, h3, h4,
      Option.bind_some, Option.some_bind]
    exact ⟨_, _, rfl, rfl, rfl⟩
  · intro handle token v i ts thto agg h1 h2
    simp only [get_v1_from_write_table_item, standardize_address, h1, h2,
      Option.none_bind]
  · intro handle token_id v i ts thto agg h1 h2
    simp only [get_v1_from_delete_table_item, standardize_address, h1, h2,
      Option.none_bind]

/-- Witness for `v1_owner_two_tier_resolution`; the third conjunct is the
spec's acceptance scenario (no index entry for the handle, deposit event to
`0xX` recorded against the asset). -/
theorem v1_owner_two_tier_resolution_witness :
    (∃ own cur,
      get_v1_from_write_table_item "0xh"
        (.ok (some ⟨⟨"T", ⟨0, 0⟩⟩, ⟨5, 0⟩, .null⟩)) 1 2 3
        [("0xh", ⟨"0xo", V1_TOKEN_STORE_TABLE_TYPE⟩)] [] =
        .ok (some (own, some cur)) ∧
      own.owner_address = some "0xo" ∧ cur.owner_address = "0xo")
  ∧ (∃ own cur,
      get_v1_from_delete_table_item "0xh" (.ok (some ⟨"T", ⟨0, 0⟩⟩)) 1 2 3
        [("0xh", ⟨"0xo", V1_TOKEN_STORE_TABLE_TYPE⟩)] [] =
        .ok (some (own, some cur)) ∧
      own.owner_address = some "0xo" ∧ cur.owner_address = "0xo")
  ∧ (∃ own cur,
      get_v1_from_write_table_item "0xh"
        (.ok (some ⟨⟨"T", ⟨0, 0⟩⟩, ⟨5, 0⟩, .null⟩)) 1 2 3
        [] [("T", ⟨[⟨some "0xX"⟩], []⟩)] =
        .ok (some (own, some cur)) ∧
      own.owner_address = some "0xX" ∧ cur.owner_address = "0xX")
  ∧ (∃ own cur,
      get_v1_from_write_table_item "0xh"
        (.ok (some ⟨⟨"T", ⟨0, 0⟩⟩, ⟨5, 0⟩, .null⟩)) 1 2 3
        [("0xh", ⟨"0xo", "0x1::table::Table"⟩)] [("T", ⟨[⟨some "0xX"⟩], []⟩)] =
        .ok (some (own, some cur)) ∧
      own.owner_address = some "0xX" ∧ cur.owner_address = "0xX")
  ∧ (∃ own cur,
      get_v1_from_delete_table_item "0xh" (.ok (some ⟨"T", ⟨0, 0⟩⟩)) 1 2 3
        [] [("T", ⟨[], [⟨some "0xW"⟩]⟩)] =
        .ok (some (own, some cur)) ∧
      own.owner_address = some "0xW" ∧ cur.owner_address = "0xW")
  ∧ (get_v1_from_write_table_item "0xh"
      (.ok (some ⟨⟨"T", ⟨0, 0⟩⟩, ⟨5, 0⟩, .null⟩)) 1 2 3 [] [] = .ok none)
  ∧ (get_v1_from_delete_table_item "0xh" (.ok (some ⟨"T", ⟨0, 0⟩⟩)) 1 2 3 [] [] =
      .ok none) := by
  refine ⟨?_, ?_, ?_, ?_, ?_, ?_, ?_⟩
  · exact v1_owner_two_tier_resolution.1 "0xh" ⟨⟨"T", ⟨0, 0⟩⟩, ⟨5, 0⟩, .null⟩ 1 2 3
      [("0xh", ⟨"0xo", V1_TOKEN_STORE_TABLE_TYPE⟩)] []
      ⟨"0xo", V1_TOKEN_STORE_TABLE_TYPE⟩ rfl rfl
  · exact v1_owner_two_tier_resolution.2.1 "0xh" ⟨"T", ⟨0, 0⟩⟩ 1 2 3
      [("0xh", ⟨"0xo", V1_TOKEN_STORE_TABLE_TYPE⟩)] []
      ⟨"0xo", V1_TOKEN_STORE_TABLE_TYPE⟩ rfl rfl
  · exact v1_owner_two_tier_resolution.2.2.1 "0xh" ⟨⟨"T", ⟨0, 0⟩⟩, ⟨5, 0⟩, .null⟩
      1 2 3 [] [("T", ⟨[⟨some "0xX"⟩], []⟩)] ⟨[⟨some "0xX"⟩], []⟩
      ⟨some "0xX"⟩ "0xX" rfl rfl rfl rfl
  · exact v1_owner_two_tier_resolution.2.2.2.1 "0xh" ⟨⟨"T", ⟨0, 0⟩⟩, ⟨5, 0⟩, .null⟩
      1 2 3 [("0xh", ⟨"0xo", "0x1::table::Table"⟩)] [("T", ⟨[⟨some "0xX"⟩], []⟩)]
      ⟨"0xo", "0x1::table::Table"⟩ ⟨[⟨some "0xX"⟩], []⟩ ⟨some "0xX"⟩ "0xX"
      rfl (by decide) rfl rfl rfl
  · exact v1_owner_two_tier_resolution.2.2.2.2.1 "0xh" ⟨"T", ⟨0, 0⟩⟩ 1 2 3
      [] [("T", ⟨[], [⟨some "0xW"⟩]⟩)] ⟨[], [⟨some "0xW"⟩]⟩ ⟨some "0xW"⟩ "0xW"
      rfl rfl rfl rfl
  · exact v1_owner_two_tier_resolution.2.2.2.2.2.1 "0xh"
      ⟨⟨"T", ⟨0, 0⟩⟩, ⟨5, 0⟩, .null⟩ 1 2 3 [] [] rfl rfl
  · exact v1_owner_two_tier_resolution.2.2.2.2.2.2 "0xh" ⟨"T", ⟨0, 0⟩⟩ 1 2 3 [] []
      rfl rfl

/-- Expected ownership-event record pushed for a non-self transfer event
`(event_index, transfer_event)`: previous owner, zero amount, negated event
index. -/
def transfer_prev_ownership (token_data : TokenDataV2)
    (token_data_id storage_id : String) (is_soulbound : Bool)
    (p : Int × TransferEvent) : TokenOwnershipV2 :=
  { transaction_version := token_data.transaction_version
    write_set_change_index := -1 * p.1
    token_data_id := token_data_id
    property_version_v1 := BigDec.zero
    owner_address := some p.2.from_address
    storage_id := storage_id
    amount := BigDec.zero
    table_type_v1 := none
    token_properties_mutated_v1 := none
    is_soulbound_v2 := some is_soulbound
    token_standard := tokenStandardV2
    is_fungible_v2 := none
    transaction_timestamp := token_data.transaction_timestamp
    non_transferrable_by_owner := some is_soulbound }

/-- Expected current-ownership insertion for a non-self transfer event. -/
def transfer_prev_current (token_data : TokenDataV2)
    (token_data_id storage_id : String) (is_soulbound : Bool)
    (p : Int × TransferEvent) :
    CurrentTokenOwnershipV2PK × CurrentTokenOwnershipV2 :=
  ((token_data_id, BigDec.zero, p.2.from_address, storage_id),
   { token_data_id := token_data_id
     property_version_v1 := BigDec.zero
     owner_address := p.2.from_address
     storage_id := storage_id
     amount := BigDec.zero
     table_type_v1 := none
     token_properties_mutated_v1 := none
     is_soulbound_v2 := some is_soulbound
     token_standard := tokenStandardV2
     is_fungible_v2 := none
     last_transaction_version := token_data.transaction_version
     last_transaction_timestamp := token_data.transaction_timestamp
     non_transferrable_by_owner := some is_soulbound })

/-- The `is_soulbound` flag of the non-burn V2 path. -/
def nft_is_soulbound (od : ObjectAggregatedData) : Bool :=
  if od.untransferable.isSome then true
  else !od.object.object_core.allow_ungated_transfer

/-- Expected head ownership-event record for the current owner of a V2
token-data record. -/
def mint_ownership (token_data : TokenDataV2) (od : ObjectAggregatedData) :
    TokenOwnershipV2 :=
  { transaction_version := token_data.transaction_version
    write_set_change_index := token_data.write_set_change_index
    token_data_id := token_data.token_data_id
    property_version_v1 := BigDec.zero
    owner_address := some od.object.object_core.owner
    storage_id := token_data.token_data_id
    amount := BigDec.one
    table_type_v1 := none
    token_properties_mutated_v1 := none
    is_soulbound_v2 := some (nft_is_soulbound od)
    token_standard := tokenStandardV2
    is_fungible_v2 := none
    transaction_timestamp := token_data.transaction_timestamp
    non_transferrable_by_owner := some (!od.object.object_core.allow_ungated_transfer) }

/-- Expected head current-ownership insertion for the current owner of a V2
token-data record. -/
def mint_current (token_data : TokenDataV2) (od : ObjectAggregatedData) :
    CurrentTokenOwnershipV2PK × CurrentTokenOwnershipV2 :=
  ((token_data.token_data_id, BigDec.zero, od.object.object_core.owner,
    token_data.token_data_id),
   { token_data_id := token_data.token_data_id
     property_version_v1 := BigDec.zero
     owner_address := od.object.object_core.owner
     storage_id := token_data.token_data_id
     amount := BigDec.one
     table_type_v1 := none
     token_properties_mutated_v1 := none
     is_soulbound_v2 := some (nft_is_soulbound od)
     token_standard := tokenStandardV2
     is_fungible_v2 := none
     last_transaction_version := token_data.transaction_version
     last_transaction_timestamp := token_data.transaction_timestamp
     non_transferrable_by_owner := some (!od.object.object_core.allow_ungated_transfer) })

/-- The accumulating transfer loop appends, per non-self transfer event in
order, exactly one ownership record and one current-ownership insertion,
and nothing for self transfers. -/
theorem nft_transfer_loop_eq (token_data : TokenDataV2)
    (token_data_id storage_id : String) (is_soulbound : Bool) :
    ∀ (events : List (Int × TransferEvent)) os cs,
      nft_transfer_loop token_data token_data_id storage_id is_soulbound events os cs =
        (os ++ events.filterMap (fun p =>
          if p.2.to_address = p.2.from_address then none
          else some (transfer_prev_ownership token_data token_data_id storage_id
            is_soulbound p)),
         cs ++ events.filterMap (fun p =>
          if p.2.to_address = p.2.from_address then none
          else some (transfer_prev_current token_data token_data_id storage_id
            is_soulbound p))) := by
  intro events
  induction events with
  | nil => intro os cs; simp [nft_transfer_loop]
  | cons p rest ih =>
    intro os cs
    obtain ⟨e, ev⟩ := p
    by_cases h : ev.to_address = ev.from_address
    · simp only [nft_transfer_loop, h, if_pos rfl, List.filterMap_cons, ih]
      simp [h]
    · simp only [nft_transfer_loop, if_neg h, List.filterMap_cons, ih]
      simp only [h, if_false, reduceIte, List.append_assoc, List.singleton_append]
      rfl

/-- `get_nft_v2_from_token_data` succeeds exactly when the object context is
present, and then produces the head record for the current owner followed by
the per-transfer-event records. -/
theorem get_nft_v2_from_token_data_eq (token_data : TokenDataV2)
    (object_metadatas : List (String × ObjectAggregatedData))
    (od : ObjectAggregatedData)
    (h : lookupA token_data.token_data_id object_metadatas = some od) :
    get_nft_v2_from_token_data token_data object_metadatas =
      .ok (mint_ownership token_data od ::
            od.transfer_events.filterMap (fun p =>
              if p.2.to_address = p.2.from_address then none
              else some (transfer_prev_ownership token_data token_data.token_data_id
                token_data.token_data_id (nft_is_soulbound od) p)),
           mint_current token_data od ::
            od.transfer_events.filterMap (fun p =>
              if p.2.to_address = p.2.from_address then none
              else some (transfer_prev_current token_data token_data.token_data_id
                token_data.token_data_id (nft_is_soulbound od) p))) := by
  simp only [get_nft_v2_from_token_data, h, nft_transfer_loop_eq,
    List.singleton_append]
  rfl

/-- Counterexample to C3 as stated: with a transfer event at event index 0
and a state-change index 0, the event-derived `write_set_change_index` is
`-1 * 0 = 0` — not negative — and collides with the state-change-derived
index 0 of the same transaction, so the two sets are not disjoint for every
possible event index. -/
theorem change_index_collision_counterexample :
    (get_nft_v2_from_token_data ⟨"T", 1, 0, 7⟩
      [("T", ⟨⟨⟨"0xa", true⟩⟩, none, [(0, ⟨"0xb", "0xc"⟩)]⟩)]).map
      (fun r => r.1.map (fun o => o.write_set_change_index)) = .ok [0, 0] := by
  rfl

/-- C3 (amended): event-derived `write_set_change_index` values are the
negated event indices, hence non-positive; provided every transfer-event
index in the transaction is positive (index 0 would yield 0 and collide),
every event-derived index is strictly negative while the state-change-derived
index is the non-negative input index, so the two sets are disjoint. -/
theorem change_index_disjointness (token_data : TokenDataV2)
    (object_metadatas : List (String × ObjectAggregatedData))
    (od : ObjectAggregatedData)
    (h : lookupA token_data.token_data_id object_metadatas = some od)
    (hpos : ∀ e ev, (e, ev) ∈ od.transfer_events → 0 < e)
    (hwsci : 0 ≤ token_data.write_set_change_index) :
    ∀ os cs, get_nft_v2_from_token_data token_data object_metadatas = .ok (os, cs) →
      (os.head?.map (fun r => r.write_set_change_index)) =
        some token_data.write_set_change_index ∧
      (∀ r ∈ os.tail, r.write_set_change_index < 0) ∧
      (∀ r ∈ os.tail, r.write_set_change_index ≠ token_data.write_set_change_index) := by
  intro os cs hok
  rw [get_nft_v2_from_token_data_eq token_data object_metadatas od h] at hok
  injection hok with h12
  have hos : os = mint_ownership token_data od ::
      od.transfer_events.filterMap (fun p =>
        if p.2.to_address = p.2.from_address then none
        else some (transfer_prev_ownership token_data token_data.token_data_id
          token_data.token_data_id (nft_is_soulbound od) p)) :=
    (congrArg Prod.fst h12).symm
  subst hos
  have htail : ∀ r ∈ od.transfer_events.filterMap (fun p =>
      if p.2.to_address = p.2.from_address then none
      else some (transfer_prev_ownership token_data token_data.token_data_id
        token_data.token_data_id (nft_is_soulbound od) p)),
      r.write_set_change_index < 0 := by
    intro r hr
    obtain ⟨p, hp, hpr⟩ := List.mem_filterMap.mp hr
    by_cases hself : p.2.to_address = p.2.from_address
    · simp [hself] at hpr
    · simp only [hself, if_false, reduceIte, Option.some.injEq] at hpr
      have hpe : 0 < p.1 := hpos p.1 p.2 (by simpa using hp)
      rw [← hpr]
      simp only [transfer_prev_ownership]
      omega
  refine ⟨rfl, fun r hr => htail r hr, fun r hr hcontra => ?_⟩
  have := htail r hr
  omega

/-- Witness for `change_index_disjointness`: one positive-index transfer
event, state-change index 5. -/
theorem change_index_disjointness_witness :
    ∃ os cs, get_nft_v2_from_token_data ⟨"T", 1, 5, 7⟩
      [("T", ⟨⟨⟨"0xa", true⟩⟩, none, [(2, ⟨"0xb", "0xc"⟩)]⟩)] = .ok (os, cs) ∧
      (os.head?.map (fun r => r.write_set_change_index)) = some 5 ∧
      (∀ r ∈ os.tail, r.write_set_change_index < 0) ∧
      (∀ r ∈ os.tail, r.write_set_change_index ≠ 5) := by
  obtain ⟨h1, h2, h3⟩ := change_index_disjointness ⟨"T", 1, 5, 7⟩
    [("T", ⟨⟨⟨"0xa", true⟩⟩, none, [(2, ⟨"0xb", "0xc"⟩)]⟩)]
    ⟨⟨⟨"0xa", true⟩⟩, none, [(2, ⟨"0xb", "0xc"⟩)]⟩ rfl
    (by intro e ev hm; simp only [List.mem_singleton, Prod.mk.injEq] at hm; omega)
    (by decide) _ _ rfl
  exact ⟨_, _, rfl, h1, h2, h3⟩

/-- C4: For every transfer event in the aggregated object context, a
self-transfer (`from = to`) emits no ownership record and no
current-ownership insertion, while a non-self transfer emits exactly one of
each for the previous owner — `owner_address = from_address`, `amount = 0`,
`write_set_change_index = -event_index`. -/
theorem transfer_event_emission (token_data : TokenDataV2)
    (object_metadatas : List (String × ObjectAggregatedData))
    (od : ObjectAggregatedData)
    (h : lookupA token_data.token_data_id object_metadatas = some od) :
    ∀ os cs, get_nft_v2_from_token_data token_data object_metadatas = .ok (os, cs) →
      (os.tail = od.transfer_events.filterMap (fun p =>
        if p.2.to_address = p.2.from_address then none
        else some (transfer_prev_ownership token_data token_data.token_data_id
          token_data.token_data_id (nft_is_soulbound od) p)) ∧
       cs.tail = od.transfer_events.filterMap (fun p =>
        if p.2.to_address = p.2.from_address then none
        else some (transfer_prev_current token_data token_data.token_data_id
          token_data.token_data_id (nft_is_soulbound od) p))) ∧
      (∀ (e : Int) (ev : TransferEvent),
        (transfer_prev_ownership token_data token_data.token_data_id
          token_data.token_data_id (nft_is_soulbound od) (e, ev)).owner_address =
            some ev.from_address ∧
        (transfer_prev_ownership token_data token_data.token_data_id
          token_data.token_data_id (nft_is_soulbound od) (e, ev)).amount = BigDec.zero ∧
        (transfer_prev_ownership token_data token_data.token_data_id
          token_data.token_data_id (nft_is_soulbound od)
            (e, ev)).write_set_change_index = -1 * e) ∧
      (∀ (e : Int) (ev : TransferEvent),
        (transfer_prev_current token_data token_data.token_data_id
          token_data.token_data_id (nft_is_soulbound od) (e, ev)).2.owner_address =
            ev.from_address ∧
        (transfer_prev_current token_data token_data.token_data_id
          token_data.token_data_id (nft_is_soulbound od) (e, ev)).2.amount =
            BigDec.zero) := by
  intro os cs hok
  rw [get_nft_v2_from_token_data_eq token_data object_metadatas od h] at hok
  injection hok with h12
  have hos : os = mint_ownership token_data od ::
      od.transfer_events.filterMap (fun p =>
        if p.2.to_address = p.2.from_address then none
        else some (transfer_prev_ownership token_data token_data.token_data_id
          token_data.token_data_id (nft_is_soulbound od) p)) :=
    (congrArg Prod.fst h12).symm
  have hcs : cs = mint_current token_data od ::
      od.transfer_events.filterMap (fun p =>
        if p.2.to_address = p.2.from_address then none
        else some (transfer_prev_current token_data token_data.token_data_id
          token_data.token_data_id (nft_is_soulbound od) p)) :=
    (congrArg Prod.snd h12).symm
  subst hos
  subst hcs
  exact ⟨⟨rfl, rfl⟩, fun e ev => ⟨rfl, rfl, rfl⟩, fun e ev => ⟨rfl, rfl⟩⟩

/-- Witness for `transfer_event_emission`: one self transfer (suppressed)
and one genuine transfer (emitted with negated index, previous owner, zero
amount). -/
theorem transfer_event_emission_witness :
    ∃ os cs, get_nft_v2_from_token_data ⟨"T", 1, 5, 7⟩
      [("T", ⟨⟨⟨"0xa", true⟩⟩, none, [(2, ⟨"0xa", "0xa"⟩), (3, ⟨"0xb", "0xc"⟩)]⟩)] =
        .ok (os, cs) ∧
      os.tail = [transfer_prev_ownership ⟨"T", 1, 5, 7⟩ "T" "T" false (3, ⟨"0xb", "0xc"⟩)] ∧
      cs.tail = [transfer_prev_current ⟨"T", 1, 5, 7⟩ "T" "T" false (3, ⟨"0xb", "0xc"⟩)] ∧
      (transfer_prev_ownership ⟨"T", 1, 5, 7⟩ "T" "T" false
        (3, ⟨"0xb", "0xc"⟩)).owner_address = some "0xb" ∧
      (transfer_prev_ownership ⟨"T", 1, 5, 7⟩ "T" "T" false
        (3, ⟨"0xb", "0xc"⟩)).amount = BigDec.zero ∧
      (transfer_prev_ownership ⟨"T", 1, 5, 7⟩ "T" "T" false
        (3, ⟨"0xb", "0xc"⟩)).write_set_change_index = -3 := by
  obtain ⟨⟨h1, h2⟩, h3, _⟩ := transfer_event_emission ⟨"T", 1, 5, 7⟩
    [("T", ⟨⟨⟨"0xa", true⟩⟩, none, [(2, ⟨"0xa", "0xa"⟩), (3, ⟨"0xb", "0xc"⟩)]⟩)]
    ⟨⟨⟨"0xa", true⟩⟩, none, [(2, ⟨"0xa", "0xa"⟩), (3, ⟨"0xb", "0xc"⟩)]⟩ rfl _ _ rfl
  obtain ⟨h4, h5, h6⟩ := h3 3 ⟨"0xb", "0xc"⟩
  refine ⟨_, _, rfl, ?_, ?_, h4, h5, by simpa using h6⟩
  · simpa using h1
  · simpa using h2

/-- The `is_soulbound` flag equals "untransferable marker present OR
ungated transfer disallowed". -/
theorem nft_is_soulbound_eq (od : ObjectAggregatedData) :
    nft_is_soulbound od =
      (od.untransferable.isSome || !od.object.object_core.allow_ungated_transfer) := by
  unfold nft_is_soulbound
  cases od.untransferable.isSome <;> simp

/-- C5: For every V2 token-data record whose asset identity has an
aggregated object context, exactly one ownership record and one
current-ownership insertion are emitted for the current owner (they head
the outputs, and are the only entries of their transaction with
`amount = 1`), with `property_version = 0`, `amount = 1`, `owner_address`
equal to the object core's owner, `is_soulbound = untransferable-marker
present OR NOT allow_ungated_transfer`, and `non_transferrable_by_owner =
NOT allow_ungated_transfer`. -/
theorem v2_token_data_mint_emission (token_data : TokenDataV2)
    (object_metadatas : List (String × ObjectAggregatedData))
    (od : ObjectAggregatedData)
    (h : lookupA token_data.token_data_id object_metadatas = some od) :
    ∀ os cs, get_nft_v2_from_token_data token_data object_metadatas = .ok (os, cs) →
      os.head? = some (mint_ownership token_data od) ∧
      cs.head? = some (mint_current token_data od) ∧
      (mint_ownership token_data od).property_version_v1 = BigDec.zero ∧
      (mint_ownership token_data od).amount = BigDec.one ∧
      (mint_ownership token_data od).owner_address =
        some od.object.object_core.owner ∧
      (mint_ownership token_data od).is_soulbound_v2 =
        some (od.untransferable.isSome ||
          !od.object.object_core.allow_ungated_transfer) ∧
      (mint_ownership token_data od).non_transferrable_by_owner =
        some (!od.object.object_core.allow_ungated_transfer) ∧
      (mint_current token_data od).2.amount = BigDec.one ∧
      (mint_current token_data od).2.owner_address = od.object.object_core.owner ∧
      os.countP (fun r => decide (r.amount = BigDec.one)) = 1 ∧
      cs.countP (fun c => decide (c.2.amount = BigDec.one)) = 1 := by
  intro os cs hok
  rw [get_nft_v2_from_token_data_eq token_data object_metadatas od h] at hok
  injection hok with h12
  have hos : os = mint_ownership token_data od ::
      od.transfer_events.filterMap (fun p =>
        if p.2.to_address = p.2.from_address then none
        else some (transfer_prev_ownership token_data token_data.token_data_id
          token_data.token_data_id (nft_is_soulbound od) p)) :=
    (congrArg Prod.fst h12).symm
  have hcs : cs = mint_current token_data od ::
      od.transfer_events.filterMap (fun p =>
        if p.2.to_address = p.2.from_address then none
        else some (transfer_prev_current token_data token_data.token_data_id
          token_data.token_data_id (nft_is_soulbound od) p)) :=
    (congrArg Prod.snd h12).symm
  subst hos
  subst hcs
  have hzero_ne_one : ¬ (BigDec.zero = BigDec.one) := by decide
  have htail_os : ∀ r ∈ od.transfer_events.filterMap (fun p =>
      if p.2.to_address = p.2.from_address then none
      else some (transfer_prev_ownership token_data token_data.token_data_id
        token_data.token_data_id (nft_is_soulbound od) p)),
      ¬ (r.amount = BigDec.one) := by
    intro r hr
    obtain ⟨p, _, hpr⟩ := List.mem_filterMap.mp hr
    by_cases hself : p.2.to_address = p.2.from_address
    · simp [hself] at hpr
    · simp only [hself, if_false, reduceIte, Option.some.injEq] at hpr
      rw [← hpr]
      exact hzero_ne_one
  have htail_cs : ∀ c ∈ od.transfer_events.filterMap (fun p =>
      if p.2.to_address = p.2.from_address then none
      else some (transfer_prev_current token_data token_data.token_data_id
        token_data.token_data_id (nft_is_soulbound od) p)),
      ¬ (c.2.amount = BigDec.one) := by
    intro c hc
    obtain ⟨p, _, hpc⟩ := List.mem_filterMap.mp hc
    by_cases hself : p.2.to_address = p.2.from_address
    · simp [hself] at hpc
    · simp only [hself, if_false, reduceIte, Option.some.injEq] at hpc
      rw [← hpc]
      exact hzero_ne_one
  refine ⟨rfl, rfl, rfl, rfl, rfl, ?_, rfl, rfl, rfl, ?_, ?_⟩
  · simp [mint_ownership, nft_is_soulbound_eq]
  · rw [List.countP_cons]
    have h1 : (fun r => decide (r.amount = BigDec.one)) (mint_ownership token_data od) =
        true := by simp [mint_ownership]
    have h0 : (od.transfer_events.filterMap (fun p =>
        if p.2.to_address = p.2.from_address then none
        else some (transfer_prev_ownership token_data token_data.token_data_id
          token_data.token_data_id (nft_is_soulbound od) p))).countP
          (fun r => decide (r.amount = BigDec.one)) = 0 := by
      rw [List.countP_eq_zero]
      intro r hr
      simpa using htail_os r hr
    rw [h0]
    simp [mint_ownership]
  · rw [List.countP_cons]
    have h1 : (fun (c : CurrentTokenOwnershipV2PK × CurrentTokenOwnershipV2) =>
        decide (c.2.amount = BigDec.one)) (mint_current token_data od) = true := by
      simp [mint_current]
    have h0 : (od.transfer_events.filterMap (fun p =>
        if p.2.to_address = p.2.from_address then none
        else some (transfer_prev_current token_data token_data.token_data_id
          token_data.token_data_id (nft_is_soulbound od) p))).countP
          (fun c => decide (c.2.amount = BigDec.one)) = 0 := by
      rw [List.countP_eq_zero]
      intro c hc
      simpa using htail_cs c hc
    rw [h0]
    simp [mint_current]

/-- Witness for `v2_token_data_mint_emission`: a soulbound mint
(`allow_ungated_transfer = false`, untransferable marker present). -/
theorem v2_token_data_mint_emission_witness :
    ∃ os cs, get_nft_v2_from_token_data ⟨"T", 1, 5, 7⟩
      [("T", ⟨⟨⟨"0xa", false⟩⟩, some (), []⟩)] = .ok (os, cs) ∧
      os.head? = some (mint_ownership ⟨"T", 1, 5, 7⟩ ⟨⟨⟨"0xa", false⟩⟩, some (), []⟩) ∧
      cs.head? = some (mint_current ⟨"T", 1, 5, 7⟩ ⟨⟨⟨"0xa", false⟩⟩, some (), []⟩) ∧
      (mint_ownership ⟨"T", 1, 5, 7⟩
        ⟨⟨⟨"0xa", false⟩⟩, some (), []⟩).property_version_v1 = BigDec.zero ∧
      (mint_ownership ⟨"T", 1, 5, 7⟩
        ⟨⟨⟨"0xa", false⟩⟩, some (), []⟩).amount = BigDec.one ∧
      (mint_ownership ⟨"T", 1, 5, 7⟩
        ⟨⟨⟨"0xa", false⟩⟩, some (), []⟩).owner_address = some "0xa" ∧
      (mint_ownership ⟨"T", 1, 5, 7⟩
        ⟨⟨⟨"0xa", false⟩⟩, some (), []⟩).is_soulbound_v2 = some true ∧
      (mint_ownership ⟨"T", 1, 5, 7⟩
        ⟨⟨⟨"0xa", false⟩⟩, some (), []⟩).non_transferrable_by_owner = some true ∧
      (mint_current ⟨"T", 1, 5, 7⟩
        ⟨⟨⟨"0xa", false⟩⟩, some (), []⟩).2.amount = BigDec.one ∧
      (mint_current ⟨"T", 1, 5, 7⟩
        ⟨⟨⟨"0xa", false⟩⟩, some (), []⟩).2.owner_address = "0xa" ∧
      os.countP (fun r => decide (r.amount = BigDec.one)) = 1 ∧
      cs.countP (fun c => decide (c.2.amount = BigDec.one)) = 1 := by
  obtain ⟨h1, h2, h3, h4, h5, h6, h7, h8, h9, h10, h11⟩ :=
    v2_token_data_mint_emission ⟨"T", 1, 5, 7⟩
      [("T", ⟨⟨⟨"0xa", false⟩⟩, some (), []⟩)]
      ⟨⟨⟨"0xa", false⟩⟩, some (), []⟩ rfl _ _ rfl
  exact ⟨_, _, rfl, h1, h2, h3, h4, h5, h6, h7, h8, h9, h10, h11⟩

/-- Divergence exhibited for C6. Burned token whose write resource still
carries the object core, with `allow_ungated_transfer = true` and NO
untransferable marker in the aggregated metadata (the entry exists with
`untransferable = none`): the code emits `is_soulbound_v2 = some true`
because `.map(|obj| obj.untransferable.as_ref()).is_some()` tests only that
the metadata entry exists — whereas the claim (matching the code's own
comment and the sibling path) requires `is_soulbound = marker-present OR
NOT allow_ungated_transfer = false` here. `amount = 0` and
`non_transferrable_by_owner = not allow_ungated_transfer = false` are as
claimed. -/
theorem burned_with_object_core_soulbound_divergence :
    ∃ own cur,
      get_burned_nft_v2_from_write_resource "0xt" (.ok (some ⟨⟨"0xa", true⟩⟩))
        1 2 3 [] [("0xt", ⟨some "0xp"⟩)]
        [("0xt", ⟨⟨⟨"0xa", true⟩⟩, none, []⟩)] none =
        (.ok (some (own, cur)), 0) ∧
      own.is_soulbound_v2 = some true ∧
      cur.is_soulbound_v2 = some true ∧
      (lookupA "0xt" [("0xt", (⟨⟨⟨"0xa", true⟩⟩, none, []⟩ : ObjectAggregatedData))]).bind
        (fun od => od.untransferable) = none ∧
      own.amount = BigDec.zero ∧
      own.non_transferrable_by_owner = some false := by
  refine ⟨_, _, rfl, ?_, ?_, ?_, ?_, ?_⟩ <;> rfl

/-- A decimal with non-negative unscaled integer has non-negative value. -/
theorem bigdec_val_nonneg (x : BigDec) (h : 0 ≤ x.int_val) : 0 ≤ x.val := by
  unfold BigDec.val
  have : (0 : ℚ) ≤ (x.int_val : ℚ) := by exact_mod_cast h
  positivity

/-- `BigDec.zero` denotes 0. -/
theorem bigdec_val_zero : BigDec.zero.val = 0 := by
  simp [BigDec.val, BigDec.zero]

/-- `BigDec.one` denotes 1. -/
theorem bigdec_val_one : BigDec.one.val = 1 := by
  simp [BigDec.val, BigDec.one]

/-- The clamp always yields a non-negative value. -/
theorem ensure_not_negative_nonneg (x : BigDec) : 0 ≤ (ensure_not_negative x).val := by
  unfold ensure_not_negative
  by_cases h : x.int_val < 0
  · rw [if_pos h, bigdec_val_zero]
  · rw [if_neg h]
    exact bigdec_val_nonneg x (by omega)

/-- A negative-valued decimal is clamped to exactly zero. -/
theorem ensure_not_negative_of_neg (x : BigDec) (h : x.val < 0) :
    ensure_not_negative x = BigDec.zero := by
  unfold ensure_not_negative
  have hneg : x.int_val < 0 := by
    by_contra hc
    exact absurd (bigdec_val_nonneg x (by omega)) (not_le.mpr h)
  rw [if_pos hneg]

/-- Any success of the burn helper carries zero amounts. -/
theorem burn_helper_amount_zero (addr : String) (v i ts : Int) cache burned db :
    ∀ own cur n, get_burned_nft_v2_helper addr v i ts cache burned db =
      (.ok (some (own, cur)), n) →
      own.amount = BigDec.zero ∧ cur.amount = BigDec.zero := by
  intro own cur n h
  simp only [get_burned_nft_v2_helper, standardize_address] at h
  match hl : lookupA addr burned with
  | none =>
    rw [hl] at h
    simp at h
  | some be =>
    rw [hl] at h
    injection h with h1 h2
    simp only [Except.ok.injEq, Option.some.injEq, Prod.mk.injEq] at h1
    obtain ⟨h3, h4⟩ := h1
    rw [← h3, ← h4]
    exact ⟨rfl, rfl⟩

/-- C7: every current-ownership record produced by any derivation path has
a non-negative amount; in particular the V1 write path clamps a negative
token amount to zero rather than emitting it. -/
theorem current_ownership_amount_nonneg :
    -- V2 token-data path
    (∀ td om os cs, get_nft_v2_from_token_data td om = .ok (os, cs) →
      ∀ c ∈ cs, 0 ≤ c.2.amount.val)
  ∧ -- V2 burn path, write resource
    (∀ (addr : String) dec (v i ts : Int) cache burned om db own cur n,
      get_burned_nft_v2_from_write_resource addr dec v i ts cache burned om db =
        (.ok (some (own, cur)), n) →
      0 ≤ cur.amount.val)
  ∧ -- V2 burn path, delete resource
    (∀ (addr : String) (v i ts : Int) cache burned db own cur n,
      get_burned_nft_v2_from_delete_resource addr v i ts cache burned db =
        (.ok (some (own, cur)), n) →
      0 ≤ cur.amount.val)
  ∧ -- V1 write path
    (∀ (handle : String) dec (v i ts : Int) thto agg own cur,
      get_v1_from_write_table_item handle dec v i ts thto agg =
        .ok (some (own, some cur)) →
      0 ≤ cur.amount.val)
  ∧ -- V1 write path clamps a negative decoded amount to zero
    (∀ (handle : String) (token : TokenV1) (v i ts : Int) thto agg own cur,
      get_v1_from_write_table_item handle (.ok (some token)) v i ts thto agg =
        .ok (some (own, some cur)) →
      token.amount.val < 0 →
      cur.amount = BigDec.zero)
  ∧ -- V1 delete path
    (∀ (handle : String) dec (v i ts : Int) thto agg own cur,
      get_v1_from_delete_table_item handle dec v i ts thto agg =
        .ok (some (own, some cur)) →
      0 ≤ cur.amount.val) := by
  have hwrite_amount : ∀ (handle : String) (token : TokenV1) (v i ts : Int)
      thto agg own cur,
      get_v1_from_write_table_item handle (.ok (some token)) v i ts thto agg =
        .ok (some (own, some cur)) →
      cur.amount = ensure_not_negative token.amount := by
    intro handle token v i ts thto agg own cur h
    simp only [get_v1_from_write_table_item, standardize_address] at h
    split at h
    · exact absurd h (by simp)
    · simp only [Except.ok.injEq, Option.some.injEq, Prod.mk.injEq] at h
      obtain ⟨_, h2⟩ := h
      rw [← h2]
  refine ⟨?_, ?_, ?_, ?_, ?_, ?_⟩
  · intro td om os cs hok c hc
    match hlook : lookupA td.token_data_id om with
    | none =>
      rw [get_nft_v2_from_token_data, hlook] at hok
      exact absurd hok (by simp)
    | some od =>
      rw [get_nft_v2_from_token_data_eq td om od hlook] at hok
      injection hok with h12
      have hcs : cs = mint_current td od ::
          od.transfer_events.filterMap (fun p =>
            if p.2.to_address = p.2.from_address then none
            else some (transfer_prev_current td td.token_data_id
              td.token_data_id (nft_is_soulbound od) p)) :=
        (congrArg Prod.snd h12).symm
      subst hcs
      rcases List.mem_cons.mp hc with hc1 | hc2
      · rw [hc1, show (mint_current td od).2.amount = BigDec.one from rfl,
          bigdec_val_one]
        norm_num
      · obtain ⟨p, _, hpc⟩ := List.mem_filterMap.mp hc2
        by_cases hself : p.2.to_address = p.2.from_address
        · simp [hself] at hpc
        · simp only [hself, if_false, reduceIte, Option.some.injEq] at hpc
          rw [← hpc, show (transfer_prev_current td td.token_data_id
            td.token_data_id (nft_is_soulbound od) p).2.amount = BigDec.zero from rfl,
            bigdec_val_zero]
  · intro addr dec v i ts cache burned om db own cur n h
    simp only [get_burned_nft_v2_from_write_resource, standardize_address] at h
    split at h
    · split at h
      · exact absurd h (by simp)
      · simp only [Prod.mk.injEq, Except.ok.injEq, Option.some.injEq] at h
        obtain ⟨⟨_, h2⟩, _⟩ := h
        rw [← h2]
        exact le_of_eq bigdec_val_zero.symm
      · obtain ⟨_, h2⟩ := burn_helper_amount_zero addr v i ts cache burned db
          own cur n h
        rw [h2, bigdec_val_zero]
    · exact absurd h (by simp)
  · intro addr v i ts cache burned db own cur n h
    obtain ⟨_, h2⟩ := burn_helper_amount_zero addr v i ts cache burned db own cur n
      (by simpa [get_burned_nft_v2_from_delete_resource, standardize_address] using h)
    rw [h2, bigdec_val_zero]
  · intro handle dec v i ts thto agg own cur h
    match dec with
    | .error e => exact absurd h (by simp [get_v1_from_write_table_item])
    | .ok none => exact absurd h (by simp [get_v1_from_write_table_item])
    | .ok (some token) =>
      rw [hwrite_amount handle token v i ts thto agg own cur h]
      exact ensure_not_negative_nonneg token.amount
  · intro handle token v i ts thto agg own cur h hneg
    rw [hwrite_amount handle token v i ts thto agg own cur h]
    exact ensure_not_negative_of_neg token.amount hneg
  · intro handle dec v i ts thto agg own cur h
    match dec with
    | .error e => exact absurd h (by simp [get_v1_from_delete_table_item])
    | .ok none => exact absurd h (by simp [get_v1_from_delete_table_item])
    | .ok (some token_id) =>
      simp only [get_v1_from_delete_table_item, standardize_address] at h
      split at h
      · exact absurd h (by simp)
      · simp only [Except.ok.injEq, Option.some.injEq, Prod.mk.injEq] at h
        obtain ⟨_, h2⟩ := h
        rw [← h2]
        exact le_of_eq bigdec_val_zero.symm

/-- Witness for `current_ownership_amount_nonneg` with one concrete run per
derivation path, including a negative decoded V1 amount being clamped. -/
theorem current_ownership_amount_nonneg_witness :
    (∃ os cs, get_nft_v2_from_token_data ⟨"T", 1, 5, 7⟩
      [("T", ⟨⟨⟨"0xa", true⟩⟩, none, [(3, ⟨"0xb", "0xc"⟩)]⟩)] = .ok (os, cs) ∧
      ∀ c ∈ cs, 0 ≤ c.2.amount.val)
  ∧ (∃ own cur n, get_burned_nft_v2_from_write_resource "0xt"
      (.ok (some ⟨⟨"0xa", true⟩⟩)) 1 2 3 [] [("0xt", ⟨some "0xp"⟩)]
      [("0xt", ⟨⟨⟨"0xa", true⟩⟩, none, []⟩)] none = (.ok (some (own, cur)), n) ∧
      0 ≤ cur.amount.val)
  ∧ (∃ own cur n, get_burned_nft_v2_from_delete_resource "0xt" 1 2 3 []
      [("0xt", ⟨some "0xp"⟩)] none = (.ok (some (own, cur)), n) ∧
      0 ≤ cur.amount.val)
  ∧ (∃ own cur, get_v1_from_write_table_item "0xh"
      (.ok (some ⟨⟨"T", ⟨0, 0⟩⟩, ⟨5, 0⟩, .null⟩)) 1 2 3
      [("0xh", ⟨"0xo", V1_TOKEN_STORE_TABLE_TYPE⟩)] [] =
        .ok (some (own, some cur)) ∧
      0 ≤ cur.amount.val)
  ∧ (∃ own cur, get_v1_from_write_table_item "0xh"
      (.ok (some ⟨⟨"T", ⟨0, 0⟩⟩, ⟨-7, 0⟩, .null⟩)) 1 2 3
      [("0xh", ⟨"0xo", V1_TOKEN_STORE_TABLE_TYPE⟩)] [] =
        .ok (some (own, some cur)) ∧
      cur.amount = BigDec.zero)
  ∧ (∃ own cur, get_v1_from_delete_table_item "0xh" (.ok (some ⟨"T", ⟨0, 0⟩⟩)) 1 2 3
      [("0xh", ⟨"0xo", V1_TOKEN_STORE_TABLE_TYPE⟩)] [] =
        .ok (some (own, some cur)) ∧
      0 ≤ cur.amount.val) := by
  refine ⟨⟨_, _, rfl, ?_⟩, ⟨_, _, _, rfl, ?_⟩, ⟨_, _, _, rfl, ?_⟩,
    ⟨_, _, rfl, ?_⟩, ⟨_, _, rfl, ?_⟩, ⟨_, _, rfl, ?_⟩⟩
  · exact current_ownership_amount_nonneg.1 ⟨"T", 1, 5, 7⟩
      [("T", ⟨⟨⟨"0xa", true⟩⟩, none, [(3, ⟨"0xb", "0xc"⟩)]⟩)] _ _ rfl
  · exact current_ownership_amount_nonneg.2.1 "0xt" (.ok (some ⟨⟨"0xa", true⟩⟩))
      1 2 3 [] [("0xt", ⟨some "0xp"⟩)] [("0xt", ⟨⟨⟨"0xa", true⟩⟩, none, []⟩)]
      none _ _ _ rfl
  · exact current_ownership_amount_nonneg.2.2.1 "0xt" 1 2 3 []
      [("0xt", ⟨some "0xp"⟩)] none _ _ _ rfl
  · exact current_ownership_amount_nonneg.2.2.2.1 "0xh"
      (.ok (some ⟨⟨"T", ⟨0, 0⟩⟩, ⟨5, 0⟩, .null⟩)) 1 2 3
      [("0xh", ⟨"0xo", V1_TOKEN_STORE_TABLE_TYPE⟩)] [] _ _ rfl
  · exact current_ownership_amount_nonneg.2.2.2.2.1 "0xh"
      ⟨⟨"T", ⟨0, 0⟩⟩, ⟨-7, 0⟩, .null⟩ 1 2 3
      [("0xh", ⟨"0xo", V1_TOKEN_STORE_TABLE_TYPE⟩)] [] _ _ rfl
      (by norm_num [BigDec.val])
  · exact current_ownership_amount_nonneg.2.2.2.2.2 "0xh"
      (.ok (some ⟨"T", ⟨0, 0⟩⟩)) 1 2 3
      [("0xh", ⟨"0xo", V1_TOKEN_STORE_TABLE_TYPE⟩)] [] _ _ rfl

/-- Counterexample to C8 as stated: the columnar conversions call
`.to_u64().unwrap()` on `property_version_v1`, so a canonical record whose
property version is the decimal -1 (not representable as `u64`) makes both
columnar conversions panic (`none` in the model) — they are not total. -/
theorem parquet_conversion_not_total_counterexample :
    ParquetTokenOwnershipV2.from
      { transaction_version := 1, write_set_change_index := 2, token_data_id := "T",
        property_version_v1 := ⟨-1, 0⟩, owner_address := none, storage_id := "T",
        amount := BigDec.zero, table_type_v1 := none,
        token_properties_mutated_v1 := none, is_soulbound_v2 := none,
        token_standard := tokenStandardV2, is_fungible_v2 := none,
        transaction_timestamp := 0, non_transferrable_by_owner := none } = none
  ∧ ParquetCurrentTokenOwnershipV2.from
      { token_data_id := "T", property_version_v1 := ⟨-1, 0⟩,
        owner_address := "0xa", storage_id := "T", amount := BigDec.zero,
        table_type_v1 := none, token_properties_mutated_v1 := none,
        is_soulbound_v2 := none, token_standard := tokenStandardV2,
        is_fungible_v2 := none, last_transaction_version := 1,
        last_transaction_timestamp := 2, non_transferrable_by_owner := none } =
      none := by
  exact ⟨rfl, rfl⟩

/-- C8 (amended): the row (postgres) conversion is a total field-for-field
move; the two columnar conversions succeed exactly when
`property_version_v1` is convertible to `u64` — non-negative and truncating
below `2 ^ 64` — independently of every other field (any amount, any
token-properties value), and panic otherwise. -/
theorem export_adapter_totality :
    (∀ r : TokenOwnershipV2,
      (ParquetTokenOwnershipV2.from r).isSome = r.property_version_v1.to_u64.isSome)
  ∧ (∀ c : CurrentTokenOwnershipV2,
      (ParquetCurrentTokenOwnershipV2.from c).isSome =
        c.property_version_v1.to_u64.isSome)
  ∧ (∀ x : BigDec, x.to_u64.isSome ↔
      (0 ≤ x.int_val ∧
        (if 0 ≤ x.scale then x.int_val / (10 : Int) ^ x.scale.toNat
         else x.int_val * (10 : Int) ^ (-x.scale).toNat) < 2 ^ 64))
  ∧ (∀ c : CurrentTokenOwnershipV2,
      PostgresCurrentTokenOwnershipV2.from c =
        ⟨c.token_data_id, c.property_version_v1, c.owner_address, c.storage_id,
         c.amount, c.table_type_v1, c.token_properties_mutated_v1,
         c.is_soulbound_v2, c.token_standard, c.is_fungible_v2,
         c.last_transaction_version, c.last_transaction_timestamp,
         c.non_transferrable_by_owner⟩) := by
  refine ⟨?_, ?_, ?_, fun c => rfl⟩
  · intro r
    unfold ParquetTokenOwnershipV2.from
    match h : r.property_version_v1.to_u64 with
    | none => simp [h]
    | some pv => simp [h]
  · intro c
    unfold ParquetCurrentTokenOwnershipV2.from
    match h : c.property_version_v1.to_u64 with
    | none => simp [h]
    | some pv => simp [h]
  · intro x
    unfold BigDec.to_u64
    by_cases h1 : x.int_val < 0
    · simp only [if_pos h1, Option.isSome_none, Bool.false_eq_true, false_iff]
      omega
    · simp only [if_neg h1]
      by_cases h2 : (if 0 ≤ x.scale then x.int_val / (10 : Int) ^ x.scale.toNat
          else x.int_val * (10 : Int) ^ (-x.scale).toNat) < 2 ^ 64
      · simp only [if_pos h2, Option.isSome_some, true_iff]
        omega
      · simp only [if_neg h2, Option.isSome_none, Bool.false_eq_true, false_iff]
        omega

theorem charToDigit_digitToChar (d : Nat) (h : d < 10) :
    charToDigit (digitToChar d) = some d := by
  interval_cases d <;> rfl

theorem digitToChar_ne_dot (d : Nat) (h : d < 10) : digitToChar d ≠ '.' := by
  interval_cases d <;> decide

theorem digitToChar_ne_minus (d : Nat) (h : d < 10) : digitToChar d ≠ '-' := by
  interval_cases d <;> decide

theorem bigDigits_lt (n : Nat) : ∀ d ∈ bigDigits n, d < 10 := by
  intro d hd
  unfold bigDigits at hd
  by_cases h : n = 0
  · rw [if_pos h] at hd
    simp at hd
    omega
  · rw [if_neg h] at hd
    exact Nat.digits_lt_base (by norm_num) (List.mem_reverse.mp hd)

theorem bigDigits_ne_nil (n : Nat) : bigDigits n ≠ [] := by
  unfold bigDigits
  by_cases h : n = 0
  · rw [if_pos h]
    simp
  · rw [if_neg h]
    simp [Nat.digits_ne_nil_iff_ne_zero, h]

theorem digitsVal_append (l1 l2 : List Nat) :
    ∀ acc, digitsVal acc (l1 ++ l2) = digitsVal (digitsVal acc l1) l2 := by
  induction l1 with
  | nil => intro acc; rfl
  | cons d t ih =>
    intro acc
    simp only [List.cons_append, digitsVal, List.append_eq, ih]

theorem digitsVal_shift (l : List Nat) :
    ∀ acc, digitsVal acc l = acc * 10 ^ l.length + digitsVal 0 l := by
  induction l with
  | nil => intro acc; simp [digitsVal]
  | cons d t ih =>
    intro acc
    simp only [digitsVal, List.length_cons, Nat.zero_mul, Nat.zero_add]
    rw [ih (acc * 10 + d), ih d]
    ring

theorem digitsVal_replicate_zero (k : Nat) :
    ∀ acc, digitsVal acc (List.replicate k 0) = acc * 10 ^ k := by
  induction k with
  | zero => intro acc; simp [digitsVal]
  | succ m ih =>
    intro acc
    simp only [List.replicate_succ, digitsVal, Nat.add_zero]
    rw [ih (acc * 10)]
    ring

theorem digitsVal_reverse_ofDigits (L : List Nat) :
    digitsVal 0 L.reverse = Nat.ofDigits 10 L := by
  induction L with
  | nil => rfl
  | cons d t ih =>
    rw [List.reverse_cons, digitsVal_append, ih, Nat.ofDigits_cons]
    simp only [digitsVal]
    ring

theorem digitsVal_bigDigits (n : Nat) : digitsVal 0 (bigDigits n) = n := by
  unfold bigDigits
  by_cases h : n = 0
  · rw [if_pos h, h]
    rfl
  · rw [if_neg h, digitsVal_reverse_ofDigits, Nat.ofDigits_digits]

theorem parseDigitList_map (ds : List Nat) (h : ∀ d ∈ ds, d < 10) :
    parseDigitList (ds.map digitToChar) = some ds := by
  induction ds with
  | nil => rfl
  | cons d t ih =>
    simp only [List.map_cons, parseDigitList,
      charToDigit_digitToChar d (h d (List.mem_cons_self d t)),
      ih (fun e he => h e (List.mem_cons_of_mem d he))]

theorem dot_not_mem_map_digitToChar (ds : List Nat) (h : ∀ d ∈ ds, d < 10) :
    '.' ∉ ds.map digitToChar := by
  intro hmem
  obtain ⟨d, hd, hdc⟩ := List.mem_map.mp hmem
  exact digitToChar_ne_dot d (h d hd) hdc

theorem minus_not_mem_map_digitToChar (ds : List Nat) (h : ∀ d ∈ ds, d < 10) :
    '-' ∉ ds.map digitToChar := by
  intro hmem
  obtain ⟨d, hd, hdc⟩ := List.mem_map.mp hmem
  exact digitToChar_ne_minus d (h d hd) hdc

theorem splitAtDot_no_dot (A : List Char) (h : '.' ∉ A) :
    splitAtDot A = (A, none) := by
  induction A with
  | nil => rfl
  | cons c t ih =>
    have hc : ¬ (c = '.') := fun hcc => h (hcc ▸ List.mem_cons_self c t)
    simp only [splitAtDot, if_neg hc, ih (fun hm => h (List.mem_cons_of_mem c hm))]

theorem splitAtDot_append (A B : List Char) (h : '.' ∉ A) :
    splitAtDot (A ++ '.' :: B) = (A, some B) := by
  induction A with
  | nil => simp [splitAtDot]
  | cons c t ih =>
    have hc : ¬ (c = '.') := fun hcc => h (hcc ▸ List.mem_cons_self c t)
    simp only [List.cons_append, splitAtDot, if_neg hc, List.append_eq,
      ih (fun hm => h (List.mem_cons_of_mem c hm))]

theorem decodeDecChars_of_head_ne_minus (cs : List Char)
    (h : cs.head? ≠ some '-') : decodeDecChars cs = decodeUnsignedChars cs := by
  match cs with
  | [] => rfl
  | c :: rest =>
    have hc : ¬ (c = '-') := fun hcc => h (by rw [hcc]; rfl)
    simp only [decodeDecChars, if_neg hc]

theorem decodeUnsigned_int_zeros (n k : Nat) :
    decodeUnsignedChars ((bigDigits n ++ List.replicate k 0).map digitToChar) =
      some ((n : ℚ) * 10 ^ k) := by
  have hlt : ∀ d ∈ bigDigits n ++ List.replicate k 0, d < 10 := by
    intro d hd
    rcases List.mem_append.mp hd with h | h
    · exact bigDigits_lt n d h
    · rw [List.eq_of_mem_replicate h]
      norm_num
  have hdot := dot_not_mem_map_digitToChar _ hlt
  have hne : (bigDigits n ++ List.replicate k 0).map digitToChar ≠ [] := by
    simp only [ne_eq, List.map_eq_nil_iff, List.append_eq_nil]
    intro ⟨h1, _⟩
    exact bigDigits_ne_nil n h1
  simp only [decodeUnsignedChars, splitAtDot_no_dot _ hdot,
    parseDigitList_map _ hlt, if_neg hne]
  rw [digitsVal_append, digitsVal_replicate_zero, digitsVal_bigDigits]
  congr 1
  push_cast
  ring

theorem decodeUnsigned_small_frac (n k : Nat) (hk : (bigDigits n).length ≤ k) :
    decodeUnsignedChars ('0' :: '.' ::
      (List.replicate (k - (bigDigits n).length) 0 ++ bigDigits n).map digitToChar) =
      some ((n : ℚ) / 10 ^ k) := by
  have hlt : ∀ d ∈ List.replicate (k - (bigDigits n).length) 0 ++ bigDigits n,
      d < 10 := by
    intro d hd
    rcases List.mem_append.mp hd with h | h
    · rw [List.eq_of_mem_replicate h]
      norm_num
    · exact bigDigits_lt n d h
  have hA : ('.' : Char) ∉ ['0'] := by decide
  have hsplit : splitAtDot ('0' :: '.' ::
      (List.replicate (k - (bigDigits n).length) 0 ++ bigDigits n).map digitToChar) =
      (['0'], some ((List.replicate (k - (bigDigits n).length) 0 ++
        bigDigits n).map digitToChar)) :=
    splitAtDot_append ['0'] _ hA
  have hne : (List.replicate (k - (bigDigits n).length) 0 ++
      bigDigits n).map digitToChar ≠ [] := by
    simp only [ne_eq, List.map_eq_nil_iff, List.append_eq_nil]
    intro ⟨_, h2⟩
    exact bigDigits_ne_nil n h2
  simp only [decodeUnsignedChars, hsplit, parseDigitList_map _ hlt, if_neg hne]
  have hp0 : parseDigitList ['0'] = some [0] := rfl
  rw [hp0]
  simp only [reduceIte]
  rw [digitsVal_append, digitsVal_replicate_zero]
  simp only [Nat.zero_mul, digitsVal_bigDigits, List.length_map,
    List.length_append, List.length_replicate]
  rw [Nat.sub_add_cancel hk]
  simp [digitsVal]

theorem decodeUnsigned_split_frac (n k : Nat) (hk : k < (bigDigits n).length)
    (hk0 : 0 < k) :
    decodeUnsignedChars
      (((bigDigits n).take ((bigDigits n).length - k)).map digitToChar ++ '.' ::
       ((bigDigits n).drop ((bigDigits n).length - k)).map digitToChar) =
      some ((n : ℚ) / 10 ^ k) := by
  have hlt_take : ∀ d ∈ (bigDigits n).take ((bigDigits n).length - k), d < 10 :=
    fun d hd => bigDigits_lt n d (List.take_subset _ _ hd)
  have hlt_drop : ∀ d ∈ (bigDigits n).drop ((bigDigits n).length - k), d < 10 :=
    fun d hd => bigDigits_lt n d (List.drop_subset _ _ hd)
  have hdot := dot_not_mem_map_digitToChar _ hlt_take
  have hsplit := splitAtDot_append
    (((bigDigits n).take ((bigDigits n).length - k)).map digitToChar)
    (((bigDigits n).drop ((bigDigits n).length - k)).map digitToChar) hdot
  have hlen_take : ((bigDigits n).take ((bigDigits n).length - k)).length =
      (bigDigits n).length - k := by
    simp [List.length_take]
  have hlen_drop : ((bigDigits n).drop ((bigDigits n).length - k)).length = k := by
    simp only [List.length_drop]
    omega
  have hne_take : ((bigDigits n).take ((bigDigits n).length - k)).map digitToChar ≠
      [] := by
    simp only [ne_eq, ← List.length_eq_zero, List.length_map, hlen_take]
    omega
  have hne_drop : ((bigDigits n).drop ((bigDigits n).length - k)).map digitToChar ≠
      [] := by
    simp only [ne_eq, ← List.length_eq_zero, List.length_map, hlen_drop]
    omega
  simp only [decodeUnsignedChars, hsplit, parseDigitList_map _ hlt_take,
    parseDigitList_map _ hlt_drop, if_neg hne_take, if_neg hne_drop]
  have hsum : digitsVal 0 ((bigDigits n).take ((bigDigits n).length - k)) * 10 ^ k +
      digitsVal 0 ((bigDigits n).drop ((bigDigits n).length - k)) = n := by
    have h1 := digitsVal_append ((bigDigits n).take ((bigDigits n).length - k))
      ((bigDigits n).drop ((bigDigits n).length - k)) 0
    rw [List.take_append_drop, digitsVal_bigDigits] at h1
    rw [digitsVal_shift, hlen_drop] at h1
    exact h1.symm
  simp only [List.length_map, hlen_drop]
  congr 1
  conv_rhs => rw [← hsum]
  push_cast
  have h10 : (10 : ℚ) ^ k ≠ 0 := by positivity
  field_simp

theorem head_ne_of_not_mem (l : List Char) (h : '-' ∉ l) : l.head? ≠ some '-' := by
  cases l with
  | nil => simp
  | cons c t =>
    simp only [List.head?_cons, ne_eq, Option.some.injEq]
    intro hc
    exact h (hc ▸ List.mem_cons_self c t)

theorem render_core_decode (a : Nat) (s : Int) :
    decodeUnsignedChars (
      if s ≤ 0 then (bigDigits a ++ List.replicate (-s).toNat 0).map digitToChar
      else
        if (bigDigits a).length ≤ s.toNat then
          '0' :: '.' :: ((List.replicate (s.toNat - (bigDigits a).length) 0 ++
            bigDigits a).map digitToChar)
        else
          ((bigDigits a).take ((bigDigits a).length - s.toNat)).map digitToChar ++
            '.' :: ((bigDigits a).drop ((bigDigits a).length - s.toNat)).map
              digitToChar) =
      some ((a : ℚ) * (10 : ℚ) ^ (-s)) := by
  by_cases hs : s ≤ 0
  · rw [if_pos hs, decodeUnsigned_int_zeros]
    congr 1
    have ht : ((-s).toNat : ℤ) = -s := Int.toNat_of_nonneg (by omega)
    rw [show ((10 : ℚ) : ℚ) ^ (-s) = (10 : ℚ) ^ (((-s).toNat : ℤ)) from by rw [ht]]
    rw [zpow_natCast]
  · rw [if_neg hs]
    have hks : (s.toNat : ℤ) = s := Int.toNat_of_nonneg (by omega)
    have hzp : (10 : ℚ) ^ (-s) = ((10 : ℚ) ^ s.toNat)⁻¹ := by
      rw [zpow_neg]
      congr 1
      conv_lhs => rw [← hks]
      rw [zpow_natCast]
    by_cases hlen : (bigDigits a).length ≤ s.toNat
    · rw [if_pos hlen, decodeUnsigned_small_frac a s.toNat hlen]
      congr 1
      rw [hzp, div_eq_mul_inv]
    · rw [if_neg hlen, decodeUnsigned_split_frac a s.toNat (by omega) (by omega)]
      congr 1
      rw [hzp, div_eq_mul_inv]

theorem minus_not_mem_core (a : Nat) (s : Int) :
    '-' ∉ (if s ≤ 0 then (bigDigits a ++ List.replicate (-s).toNat 0).map digitToChar
      else
        if (bigDigits a).length ≤ s.toNat then
          '0' :: '.' :: ((List.replicate (s.toNat - (bigDigits a).length) 0 ++
            bigDigits a).map digitToChar)
        else
          ((bigDigits a).take ((bigDigits a).length - s.toNat)).map digitToChar ++
            '.' :: ((bigDigits a).drop ((bigDigits a).length - s.toNat)).map
              digitToChar) := by
  by_cases hs : s ≤ 0
  · rw [if_pos hs]
    apply minus_not_mem_map_digitToChar
    intro d hd
    rcases List.mem_append.mp hd with h | h
    · exact bigDigits_lt a d h
    · rw [List.eq_of_mem_replicate h]; norm_num
  · rw [if_neg hs]
    by_cases hlen : (bigDigits a).length ≤ s.toNat
    · rw [if_pos hlen]
      intro hmem
      rcases List.mem_cons.mp hmem with h | h
      · exact absurd h (by decide)
      rcases List.mem_cons.mp h with h | h
      · exact absurd h (by decide)
      · refine minus_not_mem_map_digitToChar _ ?_ h
        intro d hd
        rcases List.mem_append.mp hd with h2 | h2
        · rw [List.eq_of_mem_replicate h2]; norm_num
        · exact bigDigits_lt a d h2
    · rw [if_neg hlen]
      intro hmem
      rcases List.mem_append.mp hmem with h | h
      · exact minus_not_mem_map_digitToChar _
          (fun d hd => bigDigits_lt a d (List.take_subset _ _ hd)) h
      rcases List.mem_cons.mp h with h | h
      · exact absurd h (by decide)
      · exact minus_not_mem_map_digitToChar _
          (fun d hd => bigDigits_lt a d (List.drop_subset _ _ hd)) h

/-- `BigDecimal::to_string` loses no precision: the reference decoder
recovers the exact rational value from the rendered decimal string. -/
theorem bigdec_render_roundtrip (x : BigDec) :
    decodeDecChars x.render = some x.val := by
  have hcore := render_core_decode x.int_val.natAbs x.scale
  have hnomem := minus_not_mem_core x.int_val.natAbs x.scale
  simp only [BigDec.render]
  by_cases hneg : x.int_val < 0
  · rw [if_pos hneg]
    simp only [decodeDecChars, reduceIte]
    rw [hcore]
    simp only [Option.map_some', Option.some.injEq, BigDec.val]
    have hcast : ((x.int_val.natAbs : ℚ)) = -(x.int_val : ℚ) := by
      rw [Int.cast_natAbs, abs_of_neg hneg]
      push_cast
      ring
    rw [hcast]
    ring
  · rw [if_neg hneg]
    rw [decodeDecChars_of_head_ne_minus _ (head_ne_of_not_mem _ hnomem), hcore]
    simp only [Option.some.injEq, BigDec.val]
    have hcast : ((x.int_val.natAbs : ℚ)) = (x.int_val : ℚ) := by
      rw [Int.cast_natAbs, abs_of_nonneg (by omega : (0 : ℤ) ≤ x.int_val)]
    rw [hcast]

/-- `decode_decimal` inverts `BigDecimal::to_string` exactly. -/
theorem decode_decimal_to_string (x : BigDec) :
    decode_decimal x.to_string = some x.val := by
  unfold decode_decimal BigDec.to_string
  exact bigdec_render_roundtrip x

/-- Counterexample to C9 as stated. First: the ownership-event columnar
shape renders token properties with the plain `serde_json` `to_string`
(here a non-integral float, which canonical JSON cannot represent, so per
the claim the sentinel should be substituted) — the output is the plain
rendering, not the sentinel. Second: the current-ownership columnar shape
substitutes the sentinel when the value is simply absent, i.e. not only
when canonicalization fails. -/
theorem columnar_properties_encoding_counterexample :
    (ParquetTokenOwnershipV2.from
      { transaction_version := 1, write_set_change_index := 2, token_data_id := "T",
        property_version_v1 := ⟨0, 0⟩, owner_address := none, storage_id := "T",
        amount := BigDec.zero, table_type_v1 := none,
        token_properties_mutated_v1 := some (.floatNum "1.5"),
        is_soulbound_v2 := none, token_standard := tokenStandardV2,
        is_fungible_v2 := none, transaction_timestamp := 0,
        non_transferrable_by_owner := none }).map
        (fun p => p.token_properties_mutated_v1) = some (some "1.5")
  ∧ canonical_to_string (.floatNum "1.5") = none
  ∧ ("1.5" : String) ≠ DEFAULT_NONE
  ∧ (ParquetCurrentTokenOwnershipV2.from
      { token_data_id := "T", property_version_v1 := ⟨0, 0⟩,
        owner_address := "0xa", storage_id := "T", amount := BigDec.zero,
        table_type_v1 := none, token_properties_mutated_v1 := none,
        is_soulbound_v2 := none, token_standard := tokenStandardV2,
        is_fungible_v2 := none, last_transaction_version := 1,
        last_transaction_timestamp := 2,
        non_transferrable_by_owner := none }).map
        (fun p => p.token_properties_mutated_v1) = some (some DEFAULT_NONE) := by
  exact ⟨rfl, rfl, by decide, rfl⟩

/-- C9 (amended): both columnar shapes encode the decimal amount as its
plain decimal string, losing no precision (the reference decoder recovers
the exact value). The current-ownership shape encodes present token
properties as canonical JSON text (sorted keys) and substitutes the
documented sentinel exactly when canonicalization fails or the value is
absent; the ownership-event shape instead uses the value's plain
(`serde_json`) text in stored field order and never substitutes the
sentinel. -/
theorem columnar_adapter_encoding :
    (∀ r p, ParquetTokenOwnershipV2.from r = some p →
      decode_decimal p.amount = some r.amount.val)
  ∧ (∀ c p, ParquetCurrentTokenOwnershipV2.from c = some p →
      decode_decimal p.amount = some c.amount.val)
  ∧ (∀ c p v s, ParquetCurrentTokenOwnershipV2.from c = some p →
      c.token_properties_mutated_v1 = some v →
      canonical_to_string v = some s →
      p.token_properties_mutated_v1 = some s)
  ∧ (∀ c p v, ParquetCurrentTokenOwnershipV2.from c = some p →
      c.token_properties_mutated_v1 = some v →
      canonical_to_string v = none →
      p.token_properties_mutated_v1 = some DEFAULT_NONE)
  ∧ (∀ c p, ParquetCurrentTokenOwnershipV2.from c = some p →
      c.token_properties_mutated_v1 = none →
      p.token_properties_mutated_v1 = some DEFAULT_NONE)
  ∧ (∀ r p, ParquetTokenOwnershipV2.from r = some p →
      p.token_properties_mutated_v1 =
        r.token_properties_mutated_v1.map serde_to_string) := by
  have hfrom : ∀ r p, ParquetTokenOwnershipV2.from r = some p →
      p.amount = r.amount.to_string ∧
      p.token_properties_mutated_v1 =
        r.token_properties_mutated_v1.map (fun v => serde_to_string v) := by
    intro r p h
    unfold ParquetTokenOwnershipV2.from at h
    match hu : r.property_version_v1.to_u64 with
    | none => rw [hu] at h; exact absurd h (by simp)
    | some pv =>
      rw [hu] at h
      injection h with h1
      rw [← h1]
      exact ⟨rfl, rfl⟩
  have hfromc : ∀ c p, ParquetCurrentTokenOwnershipV2.from c = some p →
      p.amount = c.amount.to_string ∧
      p.token_properties_mutated_v1 =
        ((c.token_properties_mutated_v1.bind
          (fun v => canonical_to_string v)).orElse
          (fun _ => some DEFAULT_NONE)) := by
    intro c p h
    unfold ParquetCurrentTokenOwnershipV2.from at h
    match hu : c.property_version_v1.to_u64 with
    | none => rw [hu] at h; exact absurd h (by simp)
    | some pv =>
      rw [hu] at h
      injection h with h1
      rw [← h1]
      exact ⟨rfl, rfl⟩
  refine ⟨?_, ?_, ?_, ?_, ?_, ?_⟩
  · intro r p h
    rw [(hfrom r p h).1, decode_decimal_to_string]
  · intro c p h
    rw [(hfromc c p h).1, decode_decimal_to_string]
  · intro c p v s h hv hc
    rw [(hfromc c p h).2, hv]
    simp [hc, Option.orElse]
  · intro c p v h hv hc
    rw [(hfromc c p h).2, hv]
    simp [hc, Option.orElse]
  · intro c p h hv
    rw [(hfromc c p h).2, hv]
    simp [Option.orElse]
  · intro r p h
    exact (hfrom r p h).2

/-- Concrete ownership-event record exercising the columnar adapter. -/
def c9_sample_ownership : TokenOwnershipV2 :=
  { transaction_version := 1, write_set_change_index := 2, token_data_id := "T",
    property_version_v1 := ⟨0, 0⟩, owner_address := none, storage_id := "T",
    amount := ⟨-1234, 2⟩, table_type_v1 := none,
    token_properties_mutated_v1 := some (.obj [("b", .intNum 1), ("a", .str "x")]),
    is_soulbound_v2 := none, token_standard := tokenStandardV2,
    is_fungible_v2 := none, transaction_timestamp := 0,
    non_transferrable_by_owner := none }

/-- Concrete current-ownership record with a structured properties value. -/
def c9_sample_current_obj : CurrentTokenOwnershipV2 :=
  { token_data_id := "T", property_version_v1 := ⟨0, 0⟩,
    owner_address := "0xa", storage_id := "T", amount := ⟨314, 1⟩,
    table_type_v1 := none,
    token_properties_mutated_v1 := some (.obj [("b", .intNum 1), ("a", .str "x")]),
    is_soulbound_v2 := none, token_standard := tokenStandardV2,
    is_fungible_v2 := none, last_transaction_version := 1,
    last_transaction_timestamp := 2, non_transferrable_by_owner := none }

/-- Concrete current-ownership record with a float properties value. -/
def c9_sample_current_float : CurrentTokenOwnershipV2 :=
  { token_data_id := "T", property_version_v1 := ⟨0, 0⟩,
    owner_address := "0xa", storage_id := "T", amount := BigDec.zero,
    table_type_v1 := none,
    token_properties_mutated_v1 := some (.floatNum "2.5"),
    is_soulbound_v2 := none, token_standard := tokenStandardV2,
    is_fungible_v2 := none, last_transaction_version := 1,
    last_transaction_timestamp := 2, non_transferrable_by_owner := none }

/-- Concrete current-ownership record with no properties value. -/
def c9_sample_current_none : CurrentTokenOwnershipV2 :=
  { token_data_id := "T", property_version_v1 := ⟨0, 0⟩,
    owner_address := "0xa", storage_id := "T", amount := BigDec.zero,
    table_type_v1 := none, token_properties_mutated_v1 := none,
    is_soulbound_v2 := none, token_standard := tokenStandardV2,
    is_fungible_v2 := none, last_transaction_version := 1,
    last_transaction_timestamp := 2, non_transferrable_by_owner := none }

/-- Witness for `columnar_adapter_encoding`: a negative two-decimal amount
round-trips exactly; a present object value is canonically encoded in the
current shape and plainly encoded in the event shape; a float value and an
absent value both yield the sentinel in the current shape. -/
theorem columnar_adapter_encoding_witness :
    (∃ p, ParquetTokenOwnershipV2.from c9_sample_ownership = some p ∧
      decode_decimal p.amount = some ((⟨-1234, 2⟩ : BigDec).val) ∧
      p.token_properties_mutated_v1 =
        some (serde_to_string (.obj [("b", .intNum 1), ("a", .str "x")])))
  ∧ (∃ p, ParquetCurrentTokenOwnershipV2.from c9_sample_current_obj = some p ∧
      decode_decimal p.amount = some ((⟨314, 1⟩ : BigDec).val) ∧
      ∃ s, canonical_to_string (.obj [("b", .intNum 1), ("a", .str "x")]) = some s ∧
        p.token_properties_mutated_v1 = some s)
  ∧ (∃ p, ParquetCurrentTokenOwnershipV2.from c9_sample_current_float = some p ∧
      p.token_properties_mutated_v1 = some DEFAULT_NONE)
  ∧ (∃ p, ParquetCurrentTokenOwnershipV2.from c9_sample_current_none = some p ∧
      p.token_properties_mutated_v1 = some DEFAULT_NONE) := by
  refine ⟨⟨_, rfl, ?_, ?_⟩, ⟨_, rfl, ?_, ?_⟩, ⟨_, rfl, ?_⟩, ⟨_, rfl, ?_⟩⟩
  · exact columnar_adapter_encoding.1 c9_sample_ownership _ rfl
  · exact columnar_adapter_encoding.2.2.2.2.2 c9_sample_ownership _ rfl
  · exact columnar_adapter_encoding.2.1 c9_sample_current_obj _ rfl
  · exact ⟨_, rfl, columnar_adapter_encoding.2.2.1 c9_sample_current_obj _
      (.obj [("b", .intNum 1), ("a", .str "x")]) _ rfl rfl rfl⟩
  · exact columnar_adapter_encoding.2.2.2.1 c9_sample_current_float _
      (.floatNum "2.5") rfl rfl rfl
  · exact columnar_adapter_encoding.2.2.2.2.1 c9_sample_current_none _ rfl rfl
